import Mathlib

/-!
Verification development for the Sofia Attestor Template.

This file gives a shallow embedding of the repository's verification-and-claim
pipeline and proves properties about it:

- the OAuth token verifier `verifyAndGetUserId`
  (src/verifier-core/src/config/oauthEndpoints.ts),
- the batch verifier `BotVerifierService.verifyTokens` and the single-account
  pipeline `BotVerifierService.linkSocialAccount`
  (src/verifier-core/src/services/BotVerifierService.ts),
- the Mastra workflow copy of the pipeline `executeLinkSocial`
  (src/mastra/src/mastra/workflows/verifier.ts),
- the `AttestorService` constructor
  (src/attestor-core/src/services/AttestorService.ts),
- the deposit/gas configuration constants
  (src/verifier-core/src/config/constants.ts).

External collaborators (OAuth provider HTTP endpoints, the IPFS pinning
service, and the on-chain MultiVault ledger) are modelled as oracles packaged
in a `World` structure.  Every network interaction of a pipeline run is
recorded in an event trace, so temporal claims (ordering, absence of calls)
become statements about the trace.  JavaScript truthiness on optional strings
is modelled explicitly (`undefined` and the empty string are falsy).
-/

namespace Sofia

/-! ## JavaScript-semantics helpers -/

/-- Truthiness test for a JS value of type `string | undefined`:
`undefined` and `""` are falsy, every other string is truthy. -/
def jsFalsyStr : Option String → Bool
  | none => true
  | some s => s == ""

/-- JS `a || fallback` for `a : string | undefined` with a string fallback. -/
def jsOrStr (a : Option String) (fallback : String) : String :=
  match a with
  | none => fallback
  | some s => if s == "" then fallback else s

/-- JS `a || b` for two `string | undefined` values. -/
def jsOrOpt (a b : Option String) : Option String :=
  if jsFalsyStr a then b else a

/-- JS `x ? String(x) : undefined` for `x : string | undefined`:
collapses a falsy value to `undefined`. -/
def jsTruthyOpt (o : Option String) : Option String :=
  if jsFalsyStr o then none else o

/-- Decidable check that the character list `b` starts with the list `a`. -/
def charsStartWith : List Char → List Char → Bool
  | [], _ => true
  | _ :: _, [] => false
  | a :: as, b :: bs => a == b && charsStartWith as bs

/-- Decidable check that a character list contains `pat` as a contiguous run. -/
def charsContain (pat : List Char) : List Char → Bool
  | [] => charsStartWith pat []
  | c :: rest => charsStartWith pat (c :: rest) || charsContain pat rest

/-- JS `s.includes(pat)` — substring containment test. -/
def strContains (s pat : String) : Bool :=
  charsContain pat.data s.data

/-- Lower-case hexadecimal digit for a value below 16. -/
def hexDigitChar (n : Nat) : Char :=
  if n < 10 then Char.ofNat (48 + n) else Char.ofNat (87 + n)

/-- UTF-8 byte sequence of one character, as natural numbers below 256. -/
def utf8ByteList (c : Char) : List Nat :=
  let n := c.toNat
  if n < 128 then [n]
  else if n < 2048 then [192 + n / 64, 128 + n % 64]
  else if n < 65536 then [224 + n / 4096, 128 + (n / 64) % 64, 128 + n % 64]
  else [240 + n / 262144, 128 + (n / 4096) % 64, 128 + (n / 64) % 64, 128 + n % 64]

/-- Two lower-case hex digits of a byte value. -/
def byteHex (b : Nat) : String :=
  String.mk [hexDigitChar (b / 16), hexDigitChar (b % 16)]

/-- viem's `stringToHex`: `0x` followed by the lower-case hex encoding of the
UTF-8 bytes of the string. -/
def stringToHex (s : String) : String :=
  "0x" ++ String.join (s.data.map (fun c => String.join ((utf8ByteList c).map byteHex)))

/-! ## Configuration constants (src/verifier-core/src/config/constants.ts) -/

/-- The five social platforms of the template. -/
inductive SocialPlatform
  | discord
  | youtube
  | spotify
  | twitch
  | twitter
deriving DecidableEq, Repr

/-- The literal platform string, as interpolated into template literals. -/
def platformSlug : SocialPlatform → String
  | .discord => "discord"
  | .youtube => "youtube"
  | .spotify => "spotify"
  | .twitch => "twitch"
  | .twitter => "twitter"

/-- `PREDICATE_NAMES` from constants.ts. -/
def PREDICATE_NAMES : SocialPlatform → String
  | .discord => "has verified discord id"
  | .youtube => "has verified youtube id"
  | .spotify => "has verified spotify id"
  | .twitch => "has verified twitch id"
  | .twitter => "has verified twitter id"

structure BotDepositConfigShape where
  ATOM_DEPOSIT : Nat
  TRIPLE_EXTRA : Nat

/-- `BOT_DEPOSIT_CONFIG` from constants.ts: 0.5 TRUST (in wei) extra deposit
for atom creations and for the triple creation. -/
def BOT_DEPOSIT_CONFIG : BotDepositConfigShape :=
  { ATOM_DEPOSIT := 500000000000000000
    TRIPLE_EXTRA := 500000000000000000 }

structure GasLimitsShape where
  ATOM_CREATION : Nat
  TRIPLE_CREATION : Nat

/-- `GAS_LIMITS` from constants.ts. -/
def GAS_LIMITS : GasLimitsShape :=
  { ATOM_CREATION := 500000
    TRIPLE_CREATION := 800000 }

/-! ## OAuth token verification (src/verifier-core/src/config/oauthEndpoints.ts)

The provider response body is modelled as a record of the optional JSON paths
the extraction code reads (`data.id`, `data.items[0].id`, `data.data[0].id`,
`data.data.id`, and the corresponding name fields). -/

structure ProviderData where
  id : Option String := none
  username : Option String := none
  display_name : Option String := none
  items0_id : Option String := none
  items0_snippet_title : Option String := none
  data0_id : Option String := none
  data0_login : Option String := none
  data_id : Option String := none
  data_username : Option String := none
deriving DecidableEq, Repr

/-- Result of `await response.json()`: either the parsed body or a thrown
parse error (caught by the surrounding try/catch). -/
inductive FetchBody
  | parseError (message : String)
  | parsed (data : ProviderData)
deriving DecidableEq, Repr

/-- Outcome of the single `fetch` to the provider's who-am-I endpoint:
either the network call itself fails (fetch throws), or an HTTP response
with a status code and a body arrives. -/
inductive FetchOutcome
  | networkError (message : String)
  | httpResponse (status : Nat) (body : FetchBody)
deriving DecidableEq, Repr

/-- `response.ok` — status in the 2xx range. -/
def responseOk (status : Nat) : Bool :=
  200 ≤ status && status < 300

/-- `OAuthVerificationResult` from oauthEndpoints.ts. -/
structure OAuthVerificationResult where
  valid : Bool
  userId : Option String := none
  username : Option String := none
  error : Option String := none
deriving DecidableEq, Repr

/-- The platform-specific extraction rule of oauthEndpoints.ts
(`userId`/`username` read from the parsed provider body). -/
def extractIds (platform : SocialPlatform) (data : ProviderData) :
    Option String × Option String :=
  match platform with
  | .discord => (data.id, data.username)
  | .youtube => (data.items0_id, data.items0_snippet_title)
  | .spotify => (data.id, data.display_name)
  | .twitch => (data.data0_id, data.data0_login)
  | .twitter => (data.data_id, data.data_username)

/-- `verifyAndGetUserId` from src/verifier-core/src/config/oauthEndpoints.ts.

The second component of the result records whether the HTTP request to the
provider was issued.  The whole body of the source function sits inside a
try/catch whose catch returns `{valid:false, error}`, so the function never
throws; in the embedding this is reflected by totality: every outcome maps to
an `OAuthVerificationResult`. -/
def verifyAndGetUserId (platform : SocialPlatform) (token : String)
    (clientId : Option String) (fetched : FetchOutcome) :
    OAuthVerificationResult × Bool :=
  if platform = .twitch && jsFalsyStr clientId then
    ({ valid := false, error := some "Twitch Client ID required" }, false)
  else
    match fetched with
    | .networkError message => ({ valid := false, error := some message }, true)
    | .httpResponse status body =>
      if !responseOk status then
        ({ valid := false, error := some ("API returned " ++ toString status) }, true)
      else
        match body with
        | .parseError message => ({ valid := false, error := some message }, true)
        | .parsed data =>
          let ids := extractIds platform data
          if jsFalsyStr ids.1 then
            ({ valid := false, error := some "Could not extract user ID from response" }, true)
          else
            ({ valid := true, userId := ids.1, username := ids.2 }, true)

/-- A fetch outcome that the spec calls a failure: the network call failed, or
the provider answered with a non-success HTTP status. -/
def fetchFailed : FetchOutcome → Bool
  | .networkError _ => true
  | .httpResponse status _ => !responseOk status

/-! ## Batch token verification (`BotVerifierService.verifyTokens`) -/

/-- `OAuthTokens` from BotVerifierService.ts — one optional token per platform. -/
structure OAuthTokens where
  youtube : Option String := none
  spotify : Option String := none
  discord : Option String := none
  twitch : Option String := none
  twitter : Option String := none
deriving DecidableEq, Repr

/-- The `verified` record of `BotVerificationResult`. -/
structure VerifiedFlags where
  youtube : Bool
  spotify : Bool
  discord : Bool
  twitch : Bool
  twitter : Bool
deriving DecidableEq, Repr

/-- Projection of the per-platform flag out of `VerifiedFlags`. -/
def flagOf (v : VerifiedFlags) : SocialPlatform → Bool
  | .youtube => v.youtube
  | .spotify => v.spotify
  | .discord => v.discord
  | .twitch => v.twitch
  | .twitter => v.twitter

/-- Projection of the per-platform token out of `OAuthTokens`. -/
def tokenOf (t : OAuthTokens) : SocialPlatform → Option String
  | .youtube => t.youtube
  | .spotify => t.spotify
  | .discord => t.discord
  | .twitch => t.twitch
  | .twitter => t.twitter

/-- `BotVerifierService.verifyTokens`.

Each platform's simple checker (`verifyYouTubeToken`, …) issues one fetch and
returns `res.ok`, returning `false` on a thrown network error; `fetchOk p`
is that collapsed boolean outcome for platform `p`.  `verifyTwitchToken`
returns `false` without fetching when no Twitch client ID is configured.
A platform whose token is falsy is not checked at all (`tokens.x ? … : false`).

Returns the flags record, `verifiedCount`
(`Object.values(verified).filter(Boolean).length`), and the list of platforms
for which an HTTP request was issued. -/
def verifyTokens (tokens : OAuthTokens) (twitchClientId : Option String)
    (fetchOk : SocialPlatform → Bool) :
    VerifiedFlags × Nat × List SocialPlatform :=
  let youtube := if jsFalsyStr tokens.youtube then false else fetchOk .youtube
  let spotify := if jsFalsyStr tokens.spotify then false else fetchOk .spotify
  let discord := if jsFalsyStr tokens.discord then false else fetchOk .discord
  let twitch := if jsFalsyStr tokens.twitch then false
    else if jsFalsyStr twitchClientId then false else fetchOk .twitch
  let twitter := if jsFalsyStr tokens.twitter then false else fetchOk .twitter
  let verified : VerifiedFlags :=
    { youtube := youtube, spotify := spotify, discord := discord,
      twitch := twitch, twitter := twitter }
  let verifiedCount :=
    (List.filter (fun b => b) [youtube, spotify, discord, twitch, twitter]).length
  let requests :=
    (if jsFalsyStr tokens.youtube then [] else [SocialPlatform.youtube]) ++
    (if jsFalsyStr tokens.spotify then [] else [SocialPlatform.spotify]) ++
    (if jsFalsyStr tokens.discord then [] else [SocialPlatform.discord]) ++
    (if jsFalsyStr tokens.twitch then []
     else if jsFalsyStr twitchClientId then [] else [SocialPlatform.twitch]) ++
    (if jsFalsyStr tokens.twitter then [] else [SocialPlatform.twitter])
  (verified, verifiedCount, requests)

/-! ## AttestorService constructor (src/attestor-core/src/services/AttestorService.ts) -/

/-- The 32-byte zero value against which the configured IDs are compared. -/
def ZERO_ADDRESS : String :=
  "0x0000000000000000000000000000000000000000000000000000000000000000"

/-- The slice of `ChainConfiguration` the constructor reads. -/
structure ChainConfigurationShape where
  rpcUrl : String
  proxyAddress : Option String := none
deriving DecidableEq, Repr

/-- The slice of `AttestorConfig` the constructor reads. -/
structure AttestorConfigShape where
  predicateId : String
  objectId : String
  chainConfig : ChainConfigurationShape
deriving DecidableEq, Repr

/-- The state the constructor establishes. -/
structure AttestorServiceState where
  useProxy : Bool
deriving DecidableEq, Repr

/-- The `AttestorService` constructor.

The body validates the two configured IDs against the zero value and throws on
a match; otherwise it builds a public client (`createPublicClient` with an
`http` transport only records the RPC URL — it performs no I/O) and computes
`useProxy = !!config.chainConfig.proxyAddress`.  The second component is the
list of network requests the constructor issues, which is empty: no statement
in the constructor body awaits or fetches anything. -/
def AttestorService.construct (config : AttestorConfigShape) :
    Except String AttestorServiceState × List String :=
  if config.predicateId == ZERO_ADDRESS then
    (.error "predicateId cannot be zero address - please configure ATTESTOR_CONFIG.PREDICATE_ID", [])
  else if config.objectId == ZERO_ADDRESS then
    (.error "objectId cannot be zero address - please configure ATTESTOR_CONFIG.OBJECT_ID", [])
  else
    (.ok { useProxy := !jsFalsyStr config.chainConfig.proxyAddress }, [])

/-- True when an `Except` holds an error. -/
def exceptIsError {ε α : Type} : Except ε α → Bool
  | .error _ => true
  | .ok _ => false

/-! ## The external world and the event trace

A pipeline invocation interacts with the OAuth provider, the IPFS pinning
endpoint and the MultiVault ledger.  `World` packages those collaborators as
oracles: pure reads are functions of their request, transaction submissions
are indexed by the order in which the invocation submits them (the bot's
account submits sequentially, so the submission index is well defined). -/

/-- A MultiVault read-only contract call. -/
inductive LedgerRead
  | calculateAtomId (data : String)
  | isTermCreated (termId : String)
  | getAtomCost
  | getTripleCost
deriving DecidableEq, Repr

/-- A MultiVault write call, with its encoded arguments. -/
inductive TxCall
  | createAtoms (atomsData : List String) (assets : List Nat)
  | createTriples (subjectIds predicateIds objectIds : List String) (assets : List Nat)
deriving DecidableEq, Repr

/-- One network interaction of a pipeline invocation, in program order. -/
inductive Event
  | oauthCall (platform : SocialPlatform)
  | pinCall (name description : String)
  | ledgerRead (r : LedgerRead)
  | sendTx (call : TxCall) (value gas idx : Nat)
  | waitReceipt (idx : Nat) (success : Bool)
deriving DecidableEq, Repr

/-- Oracles for everything outside the pipeline. -/
structure World where
  /-- Outcome of the single fetch `verifyAndGetUserId` issues. -/
  oauthFetch : FetchOutcome
  /-- `pinThing` mutation: name and description to either the returned URI or
  the message of the error `pinToIPFS` throws (HTTP failure, GraphQL error
  payload, or missing URI). -/
  pinThing : String → String → Except String String
  /-- Pure `calculateAtomId` contract read. -/
  calculateAtomId : String → String
  /-- `isTermCreated` contract read. -/
  isTermCreated : String → Bool
  /-- `getAtomCost` contract read. -/
  getAtomCost : Nat
  /-- `getTripleCost` contract read. -/
  getTripleCost : Nat
  /-- Outcome of the n-th `sendTransaction` of this invocation: the
  transaction hash, or the message of a thrown submission error. -/
  sendOutcome : Nat → Except String String
  /-- Receipt status of the n-th submitted transaction. -/
  receiptSuccess : Nat → Bool
  /-- Block number in the receipt of the n-th submitted transaction. -/
  receiptBlock : Nat → Nat

/-! ## BotVerifierService.linkSocialAccount
(src/verifier-core/src/services/BotVerifierService.ts)

The TypeScript result object has optional fields; a field the code does not
set is `none` here, so the embedding distinguishes an absent flag from a
present `false`. -/

/-- `LinkSocialResult` from BotVerifierService.ts. -/
structure LinkSocialResult where
  success : Bool
  platform : Option SocialPlatform := none
  userId : Option String := none
  username : Option String := none
  txHash : Option String := none
  walletAtomCreated : Option Bool := none
  predicateAtomCreated : Option Bool := none
  socialAtomCreated : Option Bool := none
  error : Option String := none
deriving DecidableEq, Repr

/-- The catch block of `linkSocialAccount`: a thrown error whose message
mentions `AtomExists` / `Atom exists` is mapped to the distinct
already-linked message, anything else is returned verbatim; neither branch
sets the created flags. -/
def linkCatchResult (platform : SocialPlatform) (errorMessage : String) :
    LinkSocialResult :=
  if strContains errorMessage "AtomExists" || strContains errorMessage "Atom exists" then
    { success := false,
      error := some ("This " ++ platformSlug platform ++
        " account is already linked to another wallet") }
  else
    { success := false, error := some errorMessage }

/-- `createAtomWithData`: submit a one-atom `createAtoms` transaction with
value `atomCost + BOT_DEPOSIT_CONFIG.ATOM_DEPOSIT`, await its receipt, and
throw `Atom creation failed: <hash>` when the receipt is not successful. -/
def createAtomWithData (w : World) (atomDataHex : String) (atomCost : Nat)
    (idx : Nat) : Except String String × List Event :=
  let atomTotalValue := atomCost + BOT_DEPOSIT_CONFIG.ATOM_DEPOSIT
  let call := TxCall.createAtoms [atomDataHex] [atomTotalValue]
  match w.sendOutcome idx with
  | .error message =>
      (.error message, [.sendTx call atomTotalValue GAS_LIMITS.ATOM_CREATION idx])
  | .ok txHash =>
    if w.receiptSuccess idx then
      (.ok txHash,
       [.sendTx call atomTotalValue GAS_LIMITS.ATOM_CREATION idx, .waitReceipt idx true])
    else
      (.error ("Atom creation failed: " ++ txHash),
       [.sendTx call atomTotalValue GAS_LIMITS.ATOM_CREATION idx, .waitReceipt idx false])

/-- Step 9 of `linkSocialAccount`: submit the `createTriples` transaction with
value `tripleCost + BOT_DEPOSIT_CONFIG.TRIPLE_EXTRA` and await its receipt.
A thrown submission goes to the catch block; a non-success receipt returns the
failure result carrying the three created flags. -/
def tripleStage (w : World) (platform : SocialPlatform) (userId : String)
    (username : Option String) (walletAtomId predicateAtomId socialAtomId : String)
    (tripleCost idx : Nat)
    (walletAtomCreated predicateAtomCreated socialAtomCreated : Bool) :
    LinkSocialResult × List Event :=
  let tripleDepositAmount := tripleCost + BOT_DEPOSIT_CONFIG.TRIPLE_EXTRA
  let call := TxCall.createTriples [walletAtomId] [predicateAtomId] [socialAtomId]
    [tripleDepositAmount]
  match w.sendOutcome idx with
  | .error message =>
      (linkCatchResult platform message,
       [.sendTx call tripleDepositAmount GAS_LIMITS.TRIPLE_CREATION idx])
  | .ok txHash =>
    if w.receiptSuccess idx then
      ({ success := true, platform := some platform, userId := some userId,
         username := username, txHash := some txHash,
         walletAtomCreated := some walletAtomCreated,
         predicateAtomCreated := some predicateAtomCreated,
         socialAtomCreated := some socialAtomCreated },
       [.sendTx call tripleDepositAmount GAS_LIMITS.TRIPLE_CREATION idx,
        .waitReceipt idx true])
    else
      ({ success := false, platform := some platform, userId := some userId,
         username := username,
         walletAtomCreated := some walletAtomCreated,
         predicateAtomCreated := some predicateAtomCreated,
         socialAtomCreated := some socialAtomCreated,
         error := some ("Triple creation failed. TX: " ++ txHash) },
       [.sendTx call tripleDepositAmount GAS_LIMITS.TRIPLE_CREATION idx,
        .waitReceipt idx false])

/-- Step 8 of `linkSocialAccount`: create the social atom when it does not
exist, then proceed to the triple.  A thrown creation error (failed receipt
included, since `createAtomWithData` converts that to a throw) lands in the
catch block. -/
def socialStage (w : World) (platform : SocialPlatform) (userId : String)
    (username : Option String) (socialAtomDataHex : String)
    (walletAtomId predicateAtomId socialAtomId : String)
    (socialAtomExists : Bool) (atomCost tripleCost idx : Nat)
    (walletAtomCreated predicateAtomCreated : Bool) :
    LinkSocialResult × List Event :=
  if socialAtomExists then
    tripleStage w platform userId username walletAtomId predicateAtomId socialAtomId
      tripleCost idx walletAtomCreated predicateAtomCreated false
  else
    match createAtomWithData w socialAtomDataHex atomCost idx with
    | (.error message, events) => (linkCatchResult platform message, events)
    | (.ok _, events) =>
      let next := tripleStage w platform userId username walletAtomId predicateAtomId
        socialAtomId tripleCost (idx + 1) walletAtomCreated predicateAtomCreated true
      (next.1, events ++ next.2)

/-- Step 7 of `linkSocialAccount`: create the predicate atom when needed. -/
def predicateStage (w : World) (platform : SocialPlatform) (userId : String)
    (username : Option String) (predicateDataHex socialAtomDataHex : String)
    (walletAtomId predicateAtomId socialAtomId : String)
    (predicateAtomExists socialAtomExists : Bool) (atomCost tripleCost idx : Nat)
    (walletAtomCreated : Bool) :
    LinkSocialResult × List Event :=
  if predicateAtomExists then
    socialStage w platform userId username socialAtomDataHex walletAtomId
      predicateAtomId socialAtomId socialAtomExists atomCost tripleCost idx
      walletAtomCreated false
  else
    match createAtomWithData w predicateDataHex atomCost idx with
    | (.error message, events) => (linkCatchResult platform message, events)
    | (.ok _, events) =>
      let next := socialStage w platform userId username socialAtomDataHex walletAtomId
        predicateAtomId socialAtomId socialAtomExists atomCost tripleCost (idx + 1)
        walletAtomCreated true
      (next.1, events ++ next.2)

/-- Step 6 of `linkSocialAccount`: create the wallet atom when needed. -/
def walletStage (w : World) (platform : SocialPlatform) (userId : String)
    (username : Option String)
    (walletAtomData predicateDataHex socialAtomDataHex : String)
    (walletAtomId predicateAtomId socialAtomId : String)
    (walletAtomExists predicateAtomExists socialAtomExists : Bool)
    (atomCost tripleCost : Nat) :
    LinkSocialResult × List Event :=
  if walletAtomExists then
    predicateStage w platform userId username predicateDataHex socialAtomDataHex
      walletAtomId predicateAtomId socialAtomId predicateAtomExists socialAtomExists
      atomCost tripleCost 0 false
  else
    match createAtomWithData w walletAtomData atomCost 0 with
    | (.error message, events) => (linkCatchResult platform message, events)
    | (.ok _, events) =>
      let next := predicateStage w platform userId username predicateDataHex
        socialAtomDataHex walletAtomId predicateAtomId socialAtomId
        predicateAtomExists socialAtomExists atomCost tripleCost 1 true
      (next.1, events ++ next.2)

/-- `BotVerifierService.linkSocialAccount`: verify the OAuth token, pin the
social atom label, compute the three atom ids, check their existence, fetch
the two costs, create the missing atoms sequentially (wallet, predicate,
social), and create the triple.  Returns the result together with the trace
of network interactions. -/
def linkSocialAccount (w : World) (platform : SocialPlatform)
    (walletAddress oauthToken : String) (twitchClientId : Option String) :
    LinkSocialResult × List Event :=
  let vres := verifyAndGetUserId platform oauthToken twitchClientId w.oauthFetch
  let verification := vres.1
  let tr0 : List Event := if vres.2 then [.oauthCall platform] else []
  if !verification.valid || jsFalsyStr verification.userId then
    ({ success := false, error := some (jsOrStr verification.error "Invalid OAuth token") },
     tr0)
  else
    let userId := verification.userId.getD ""
    let username := verification.username
    let socialDescription := "Verified " ++ platformSlug platform ++ " account ID"
    let tr1 := tr0 ++ [.pinCall userId socialDescription]
    match w.pinThing userId socialDescription with
    | .error message => (linkCatchResult platform message, tr1)
    | .ok socialIpfsUri =>
      let walletAtomData := stringToHex walletAddress
      let predicateDataHex := stringToHex (PREDICATE_NAMES platform)
      let socialAtomDataHex := stringToHex socialIpfsUri
      let walletAtomId := w.calculateAtomId walletAtomData
      let predicateAtomId := w.calculateAtomId predicateDataHex
      let socialAtomId := w.calculateAtomId socialAtomDataHex
      let walletAtomExists := w.isTermCreated walletAtomId
      let predicateAtomExists := w.isTermCreated predicateAtomId
      let socialAtomExists := w.isTermCreated socialAtomId
      let tr2 := tr1 ++
        [.ledgerRead (.calculateAtomId walletAtomData),
         .ledgerRead (.calculateAtomId predicateDataHex),
         .ledgerRead (.calculateAtomId socialAtomDataHex),
         .ledgerRead (.isTermCreated walletAtomId),
         .ledgerRead (.isTermCreated predicateAtomId),
         .ledgerRead (.isTermCreated socialAtomId),
         .ledgerRead .getAtomCost,
         .ledgerRead .getTripleCost]
      let next := walletStage w platform userId username walletAtomData
        predicateDataHex socialAtomDataHex walletAtomId predicateAtomId socialAtomId
        walletAtomExists predicateAtomExists socialAtomExists
        w.getAtomCost w.getTripleCost
      (next.1, tr2 ++ next.2)

/-! ## The Mastra workflow copy of the pipeline
(src/mastra/src/mastra/workflows/verifier.ts)

The workflow keeps its own copies of `verifyAndGetUserId` (with a
`process.env.TWITCH_CLIENT_ID` fallback and `String(...)` coercion of the
extracted fields) and of the pipeline, with early returns instead of thrown
errors on failed atom receipts. -/

/-- The workflow's extraction rule: each field is read through
`x ? String(x) : undefined`, so a falsy field collapses to `undefined`. -/
def extractIdsW (platform : SocialPlatform) (data : ProviderData) :
    Option String × Option String :=
  let ids := extractIds platform data
  (jsTruthyOpt ids.1, jsTruthyOpt ids.2)

/-- The workflow's `verifyAndGetUserId`: like the verifier-core one, but the
Twitch client ID falls back to the `TWITCH_CLIENT_ID` environment variable and
the extraction error message names the platform. -/
def verifyAndGetUserIdW (platform : SocialPlatform) (token : String)
    (clientId envTwitchClientId : Option String) (fetched : FetchOutcome) :
    OAuthVerificationResult × Bool :=
  if platform = .twitch && jsFalsyStr (jsOrOpt clientId envTwitchClientId) then
    ({ valid := false, error := some "Twitch Client ID required" }, false)
  else
    match fetched with
    | .networkError message => ({ valid := false, error := some message }, true)
    | .httpResponse status body =>
      if !responseOk status then
        ({ valid := false, error := some ("API returned " ++ toString status) }, true)
      else
        match body with
        | .parseError message => ({ valid := false, error := some message }, true)
        | .parsed data =>
          let ids := extractIdsW platform data
          if jsFalsyStr ids.1 then
            ({ valid := false,
               error := some ("Could not extract user ID from " ++
                 platformSlug platform ++ " response") }, true)
          else
            ({ valid := true, userId := ids.1, username := ids.2 }, true)

/-- The workflow's output object (`outputSchema`): all fields but `success`
are optional. -/
structure WorkflowResult where
  success : Bool
  platform : Option SocialPlatform := none
  userId : Option String := none
  username : Option String := none
  txHash : Option String := none
  blockNumber : Option Nat := none
  walletAtomCreated : Option Bool := none
  predicateAtomCreated : Option Bool := none
  socialAtomCreated : Option Bool := none
  error : Option String := none
deriving DecidableEq, Repr

/-- The workflow's catch block: it reports the thrown message with the
verified identity but sets no created flags. -/
def wfCatchResult (platform : SocialPlatform) (userId username : Option String)
    (message : String) : WorkflowResult :=
  { success := false, platform := some platform, userId := userId,
    username := username, error := some message }

/-- Step 6 of the workflow: submit `createTriples` with value
`tripleCost + tripleExtraDeposit` and gas `800000`, awaiting the receipt. -/
def wfTripleStage (w : World) (platform : SocialPlatform)
    (userId username : Option String)
    (walletAtomId predicateAtomId socialAtomId : String) (tripleCost idx : Nat)
    (walletAtomCreated predicateAtomCreated socialAtomCreated : Bool) :
    WorkflowResult × List Event :=
  let tripleDepositAmount := tripleCost + 500000000000000000
  let call := TxCall.createTriples [walletAtomId] [predicateAtomId] [socialAtomId]
    [tripleDepositAmount]
  match w.sendOutcome idx with
  | .error message =>
      (wfCatchResult platform userId username message,
       [.sendTx call tripleDepositAmount 800000 idx])
  | .ok tripleTxHash =>
    if w.receiptSuccess idx then
      ({ success := true, platform := some platform, userId := userId,
         username := username, txHash := some tripleTxHash,
         blockNumber := some (w.receiptBlock idx),
         walletAtomCreated := some walletAtomCreated,
         predicateAtomCreated := some predicateAtomCreated,
         socialAtomCreated := some socialAtomCreated },
       [.sendTx call tripleDepositAmount 800000 idx, .waitReceipt idx true])
    else
      ({ success := false, platform := some platform, userId := userId,
         username := username,
         walletAtomCreated := some walletAtomCreated,
         predicateAtomCreated := some predicateAtomCreated,
         socialAtomCreated := some socialAtomCreated,
         error := some ("Triple creation failed. TX: " ++ tripleTxHash) },
       [.sendTx call tripleDepositAmount 800000 idx, .waitReceipt idx false])

/-- Step 5 of the workflow: create the social atom when needed; a failed
receipt returns early reporting the wallet and predicate flags only. -/
def wfSocialStage (w : World) (platform : SocialPlatform)
    (userId username : Option String) (socialAtomDataHex : String)
    (walletAtomId predicateAtomId socialAtomId : String)
    (socialAtomExists : Bool) (atomCost tripleCost idx : Nat)
    (walletAtomCreated predicateAtomCreated : Bool) :
    WorkflowResult × List Event :=
  if socialAtomExists then
    wfTripleStage w platform userId username walletAtomId predicateAtomId socialAtomId
      tripleCost idx walletAtomCreated predicateAtomCreated false
  else
    let socialAtomTotalValue := atomCost + 500000000000000000
    let call := TxCall.createAtoms [socialAtomDataHex] [socialAtomTotalValue]
    match w.sendOutcome idx with
    | .error message =>
        (wfCatchResult platform userId username message,
         [.sendTx call socialAtomTotalValue 500000 idx])
    | .ok createSocialAtomHash =>
      if w.receiptSuccess idx then
        let next := wfTripleStage w platform userId username walletAtomId
          predicateAtomId socialAtomId tripleCost (idx + 1)
          walletAtomCreated predicateAtomCreated true
        (next.1,
         [.sendTx call socialAtomTotalValue 500000 idx, .waitReceipt idx true] ++ next.2)
      else
        ({ success := false, platform := some platform, userId := userId,
           username := username,
           walletAtomCreated := some walletAtomCreated,
           predicateAtomCreated := some predicateAtomCreated,
           error := some ("Social atom creation failed. TX: " ++ createSocialAtomHash) },
         [.sendTx call socialAtomTotalValue 500000 idx, .waitReceipt idx false])

/-- Step 4 of the workflow: create the predicate atom when needed; a failed
receipt returns early reporting the wallet flag only. -/
def wfPredicateStage (w : World) (platform : SocialPlatform)
    (userId username : Option String) (predicateDataHex socialAtomDataHex : String)
    (walletAtomId predicateAtomId socialAtomId : String)
    (predicateAtomExists socialAtomExists : Bool) (atomCost tripleCost idx : Nat)
    (walletAtomCreated : Bool) :
    WorkflowResult × List Event :=
  if predicateAtomExists then
    wfSocialStage w platform userId username socialAtomDataHex walletAtomId
      predicateAtomId socialAtomId socialAtomExists atomCost tripleCost idx
      walletAtomCreated false
  else
    let predicateAtomTotalValue := atomCost + 500000000000000000
    let call := TxCall.createAtoms [predicateDataHex] [predicateAtomTotalValue]
    match w.sendOutcome idx with
    | .error message =>
        (wfCatchResult platform userId username message,
         [.sendTx call predicateAtomTotalValue 500000 idx])
    | .ok createPredicateHash =>
      if w.receiptSuccess idx then
        let next := wfSocialStage w platform userId username socialAtomDataHex
          walletAtomId predicateAtomId socialAtomId socialAtomExists atomCost
          tripleCost (idx + 1) walletAtomCreated true
        (next.1,
         [.sendTx call predicateAtomTotalValue 500000 idx, .waitReceipt idx true] ++ next.2)
      else
        ({ success := false, platform := some platform, userId := userId,
           username := username,
           walletAtomCreated := some walletAtomCreated,
           error := some ("Predicate atom creation failed. TX: " ++ createPredicateHash) },
         [.sendTx call predicateAtomTotalValue 500000 idx, .waitReceipt idx false])

/-- Step 3 of the workflow: create the wallet atom when needed; a failed
receipt returns early reporting no created flags at all. -/
def wfWalletStage (w : World) (platform : SocialPlatform)
    (userId username : Option String)
    (walletAtomData predicateDataHex socialAtomDataHex : String)
    (walletAtomId predicateAtomId socialAtomId : String)
    (walletAtomExists predicateAtomExists socialAtomExists : Bool)
    (atomCost tripleCost : Nat) :
    WorkflowResult × List Event :=
  if walletAtomExists then
    wfPredicateStage w platform userId username predicateDataHex socialAtomDataHex
      walletAtomId predicateAtomId socialAtomId predicateAtomExists socialAtomExists
      atomCost tripleCost 0 false
  else
    let atomTotalValue := atomCost + 500000000000000000
    let call := TxCall.createAtoms [walletAtomData] [atomTotalValue]
    match w.sendOutcome 0 with
    | .error message =>
        (wfCatchResult platform userId username message,
         [.sendTx call atomTotalValue 500000 0])
    | .ok createAtomHash =>
      if w.receiptSuccess 0 then
        let next := wfPredicateStage w platform userId username predicateDataHex
          socialAtomDataHex walletAtomId predicateAtomId socialAtomId
          predicateAtomExists socialAtomExists atomCost tripleCost 1 true
        (next.1, [.sendTx call atomTotalValue 500000 0, .waitReceipt 0 true] ++ next.2)
      else
        ({ success := false, platform := some platform, userId := userId,
           username := username,
           error := some ("Wallet atom creation failed. TX: " ++ createAtomHash) },
         [.sendTx call atomTotalValue 500000 0, .waitReceipt 0 false])

/-- The workflow step `executeLinkSocial`: validate the inputs, verify the
token (no explicit client ID — the env fallback applies), require the bot
key, pin the label, read ids / existence / costs, create missing atoms
sequentially (wallet, predicate, social) and create the triple. -/
def executeLinkSocial (w : World) (walletAddress : String)
    (platform : SocialPlatform) (oauthToken : String)
    (botPrivateKey envTwitchClientId : Option String) :
    WorkflowResult × List Event :=
  if jsFalsyStr (some walletAddress) then
    ({ success := false, error := some "walletAddress is required" }, [])
  else if jsFalsyStr (some oauthToken) then
    ({ success := false, error := some "oauthToken is required" }, [])
  else
    let vres := verifyAndGetUserIdW platform oauthToken none envTwitchClientId w.oauthFetch
    let verification := vres.1
    let tr0 : List Event := if vres.2 then [.oauthCall platform] else []
    if !verification.valid || jsFalsyStr verification.userId then
      ({ success := false, platform := some platform,
         error := some (jsOrStr verification.error "OAuth verification failed") }, tr0)
    else if jsFalsyStr botPrivateKey then
      ({ success := false, platform := some platform, userId := verification.userId,
         username := verification.username,
         error := some "BOT_PRIVATE_KEY not configured on server" }, tr0)
    else
      let userId := verification.userId.getD ""
      let socialDescription := "Verified " ++ platformSlug platform ++ " account ID"
      let tr1 := tr0 ++ [.pinCall userId socialDescription]
      match w.pinThing userId socialDescription with
      | .error message =>
          (wfCatchResult platform verification.userId verification.username message, tr1)
      | .ok socialIpfsUri =>
        let socialAtomDataHex := stringToHex socialIpfsUri
        let predicateDataHex := stringToHex (PREDICATE_NAMES platform)
        let walletAtomData := stringToHex walletAddress
        let walletAtomId := w.calculateAtomId walletAtomData
        let socialAtomId := w.calculateAtomId socialAtomDataHex
        let predicateAtomId := w.calculateAtomId predicateDataHex
        let walletAtomExists := w.isTermCreated walletAtomId
        let socialAtomExists := w.isTermCreated socialAtomId
        let predicateAtomExists := w.isTermCreated predicateAtomId
        let tr2 := tr1 ++
          [.ledgerRead (.calculateAtomId walletAtomData),
           .ledgerRead (.calculateAtomId socialAtomDataHex),
           .ledgerRead (.calculateAtomId predicateDataHex),
           .ledgerRead (.isTermCreated walletAtomId),
           .ledgerRead (.isTermCreated socialAtomId),
           .ledgerRead (.isTermCreated predicateAtomId),
           .ledgerRead .getAtomCost,
           .ledgerRead .getTripleCost]
        let next := wfWalletStage w platform verification.userId verification.username
          walletAtomData predicateDataHex socialAtomDataHex walletAtomId
          predicateAtomId socialAtomId walletAtomExists predicateAtomExists
          socialAtomExists w.getAtomCost w.getTripleCost
        (next.1, tr2 ++ next.2)

/-! ## Trace predicates used by the claims -/

/-- A trace containing nothing but the OAuth verification call: no pinning
call, no ledger read, no submission, no receipt wait. -/
def onlyOAuthEvents (tr : List Event) : Bool :=
  tr.all fun e =>
    match e with
    | .oauthCall _ => true
    | _ => false

/-- An endpoint atom of a triple submission at trace index `tripleIdx` was
confirmed created earlier in the same invocation: the trace holds a one-atom
`createAtoms` submission whose payload hashes to `termId`, submitted at a
smaller transaction index, together with a successful receipt for it. -/
def confirmedCreatedBefore (w : World) (tr : List Event) (termId : String)
    (tripleIdx : Nat) : Bool :=
  tr.any fun e =>
    match e with
    | .sendTx (TxCall.createAtoms [atomData] _) _ _ j =>
        decide (w.calculateAtomId atomData = termId) && decide (j < tripleIdx) &&
          tr.any (fun e2 => decide (e2 = Event.waitReceipt j true))
    | _ => false

/-- An endpoint atom is ready for edge creation: its on-ledger existence check
answers true, or it was created and confirmed earlier in this invocation. -/
def endpointReady (w : World) (tr : List Event) (termId : String)
    (tripleIdx : Nat) : Bool :=
  w.isTermCreated termId || confirmedCreatedBefore w tr termId tripleIdx

/-- The atom payloads submitted through `createAtoms`, in trace order. -/
def atomSendPayloads : List Event → List String
  | [] => []
  | Event.sendTx (TxCall.createAtoms ds _) _ _ _ :: rest => ds ++ atomSendPayloads rest
  | _ :: rest => atomSendPayloads rest

/-- Every `createAtoms` submission is immediately followed by the wait for its
own receipt (or is the last event because the submission threw, aborting the
invocation before any later step). -/
def atomSendsAwaited : List Event → Bool
  | [] => true
  | Event.sendTx (TxCall.createAtoms _ _) _ _ j :: rest =>
      (match rest with
       | [] => true
       | e2 :: _ =>
         match e2 with
         | Event.waitReceipt j2 _ => j2 == j
         | _ => false) && atomSendsAwaited rest
  | _ :: rest => atomSendsAwaited rest

/-- The node creations `linkSocialAccount` may perform, in mandated order:
wallet then predicate then social, each present exactly when its existence
check answers false.  (The social payload is only meaningful when pinning
succeeded; when pinning fails no atom is ever submitted, so the placeholder
is never compared.) -/
def expectedCreations (w : World) (platform : SocialPlatform)
    (walletAddress oauthToken : String) (twitchClientId : Option String) :
    List String :=
  let verification := (verifyAndGetUserId platform oauthToken twitchClientId w.oauthFetch).1
  let userId := verification.userId.getD ""
  let socialDescription := "Verified " ++ platformSlug platform ++ " account ID"
  let socialPayload :=
    match w.pinThing userId socialDescription with
    | .ok uri => stringToHex uri
    | .error _ => ""
  let walletPayload := stringToHex walletAddress
  let predicatePayload := stringToHex (PREDICATE_NAMES platform)
  (if w.isTermCreated (w.calculateAtomId walletPayload) then [] else [walletPayload]) ++
  (if w.isTermCreated (w.calculateAtomId predicatePayload) then [] else [predicatePayload]) ++
  (if w.isTermCreated (w.calculateAtomId socialPayload) then [] else [socialPayload])

/-- Deposit policy of one event: a `createAtoms` submission carries value
`getAtomCost + ATOM_DEPOSIT` and a `createTriples` submission carries value
`getTripleCost + TRIPLE_EXTRA`, in the assets argument and in the transaction
value alike. -/
def depositPolicyOk (w : World) : Event → Bool
  | Event.sendTx (TxCall.createAtoms _ assets) value _ _ =>
      decide (assets = [w.getAtomCost + BOT_DEPOSIT_CONFIG.ATOM_DEPOSIT]) &&
        decide (value = w.getAtomCost + BOT_DEPOSIT_CONFIG.ATOM_DEPOSIT)
  | Event.sendTx (TxCall.createTriples _ _ _ assets) value _ _ =>
      decide (assets = [w.getTripleCost + BOT_DEPOSIT_CONFIG.TRIPLE_EXTRA]) &&
        decide (value = w.getTripleCost + BOT_DEPOSIT_CONFIG.TRIPLE_EXTRA)
  | _ => true

/-- Count of occurrences of one ledger read in a trace. -/
def ledgerReadCount (tr : List Event) (r : LedgerRead) : Nat :=
  (tr.filter (fun e => decide (e = Event.ledgerRead r))).length

/-- The transaction index of a submission or receipt event is at least `n`
(trivially true for non-transaction events). -/
def eventIdxGe (n : Nat) : Event → Bool
  | .sendTx _ _ _ j => decide (n ≤ j)
  | .waitReceipt j _ => decide (n ≤ j)
  | _ => true

/-- The event is a transaction submission or a receipt wait. -/
def eventIsTx : Event → Bool
  | .sendTx _ _ _ _ => true
  | .waitReceipt _ _ => true
  | _ => false

/-- The event is a `createTriples` submission. -/
def isTripleSubmission : Event → Bool
  | .sendTx (TxCall.createTriples _ _ _ _) _ _ _ => true
  | _ => false

/-- The event is a `createAtoms` submission. -/
def isAtomSubmission : Event → Bool
  | .sendTx (TxCall.createAtoms _ _) _ _ _ => true
  | _ => false

/-! ## Concrete worlds for counterexamples and witnesses -/

/-- Provider body of a valid discord account. -/
def sampleDiscordData : ProviderData :=
  { id := some "user123", username := some "alice" }

/-- Scenario-D world: token valid, pinning succeeds, every atom (and the
claim edge) already exists on the ledger, and the edge-creation transaction
reverts — as it does on-chain when the triple already exists. -/
def allExistsRevertWorld : World :=
  { oauthFetch := .httpResponse 200 (.parsed sampleDiscordData)
    pinThing := fun _ _ => .ok "ipfs://QmSocial"
    calculateAtomId := fun data => "id(" ++ data ++ ")"
    isTermCreated := fun _ => true
    getAtomCost := 100
    getTripleCost := 300
    sendOutcome := fun _ => .ok "0xtriplehash"
    receiptSuccess := fun _ => false
    receiptBlock := fun _ => 0 }

/-- World in which no atom exists and the first atom-creation transaction is
submitted but its receipt reports failure. -/
def nodeFailWorld : World :=
  { oauthFetch := .httpResponse 200 (.parsed sampleDiscordData)
    pinThing := fun _ _ => .ok "ipfs://QmSocial"
    calculateAtomId := fun data => "id(" ++ data ++ ")"
    isTermCreated := fun _ => false
    getAtomCost := 100
    getTripleCost := 300
    sendOutcome := fun _ => .ok "0xatomhash"
    receiptSuccess := fun _ => false
    receiptBlock := fun _ => 0 }

/-- World in which no atom exists, the three atom creations land, and the
edge-creation transaction's receipt reports failure. -/
def edgeFailWorld : World :=
  { oauthFetch := .httpResponse 200 (.parsed sampleDiscordData)
    pinThing := fun _ _ => .ok "ipfs://QmSocial"
    calculateAtomId := fun data => "id(" ++ data ++ ")"
    isTermCreated := fun _ => false
    getAtomCost := 100
    getTripleCost := 300
    sendOutcome := fun idx => .ok ("0xtx" ++ toString idx)
    receiptSuccess := fun idx => idx < 3
    receiptBlock := fun _ => 0 }

/-- World of a fully successful fresh run: token valid, pinning succeeds, no
atom exists yet, and every transaction lands. -/
def freshSuccessWorld : World :=
  { oauthFetch := .httpResponse 200 (.parsed sampleDiscordData)
    pinThing := fun _ _ => .ok "ipfs://QmSocial"
    calculateAtomId := fun data => "id(" ++ data ++ ")"
    isTermCreated := fun _ => false
    getAtomCost := 100
    getTripleCost := 300
    sendOutcome := fun idx => .ok ("0xtx" ++ toString idx)
    receiptSuccess := fun _ => true
    receiptBlock := fun _ => 42 }

/-- World with an expired token: the provider answers 401. -/
def expiredTokenWorld : World :=
  { oauthFetch := .httpResponse 401 (.parsed {})
    pinThing := fun _ _ => .ok "ipfs://QmSocial"
    calculateAtomId := fun data => "id(" ++ data ++ ")"
    isTermCreated := fun _ => false
    getAtomCost := 100
    getTripleCost := 300
    sendOutcome := fun idx => .ok ("0xtx" ++ toString idx)
    receiptSuccess := fun _ => true
    receiptBlock := fun _ => 0 }

/-! ## Claim theorems -/

/-- C6.  For every platform and every token, when the provider fetch fails
(network error) or answers with a non-success HTTP status, `verifyAndGetUserId`
returns `valid := false` together with an error message.  The source function
wraps its whole body in try/catch and returns a result in every branch, which
the embedding reflects by totality — it never throws to its caller. -/
theorem verifyAndGetUserId_fetch_failure_is_invalid (platform : SocialPlatform)
    (token : String) (clientId : Option String) (fetched : FetchOutcome)
    (h : fetchFailed fetched = true) :
    (verifyAndGetUserId platform token clientId fetched).1.valid = false ∧
    (verifyAndGetUserId platform token clientId fetched).1.error ≠ none := by
  unfold verifyAndGetUserId
  split
  · simp
  · cases fetched with
    | networkError message => simp
    | httpResponse status body =>
      simp only [fetchFailed] at h
      simp [h]

/-- Witness for C6 at a concrete failing fetch. -/
theorem verifyAndGetUserId_fetch_failure_is_invalid_witness :
    fetchFailed (FetchOutcome.networkError "socket hang up") = true ∧
    (verifyAndGetUserId .discord "tok" none
        (FetchOutcome.networkError "socket hang up")).1.valid = false ∧
    (verifyAndGetUserId .discord "tok" none
        (FetchOutcome.networkError "socket hang up")).1.error ≠ none :=
  ⟨by decide,
   verifyAndGetUserId_fetch_failure_is_invalid .discord "tok" none
     (FetchOutcome.networkError "socket hang up") (by decide)⟩

/-- C10.  For `twitch`, `verifyAndGetUserId` without a client ID returns
`valid := false` with error `Twitch Client ID required`, and the `false`
second component records that no HTTP request was issued; for every other
platform the client ID argument is ignored — the result is identical for any
two client ID values, in particular when none is supplied. -/
theorem verifyAndGetUserId_clientId_policy (p : SocialPlatform) (token : String)
    (c c' : Option String) (fetched : FetchOutcome)
    (hp : p ≠ SocialPlatform.twitch) :
    verifyAndGetUserId .twitch token none fetched =
      ({ valid := false, error := some "Twitch Client ID required" }, false) ∧
    verifyAndGetUserId p token c fetched = verifyAndGetUserId p token c' fetched := by
  constructor
  · rfl
  · cases p
    case twitch => exact absurd rfl hp
    all_goals rfl

/-- Witness for C10 at a concrete non-twitch platform. -/
theorem verifyAndGetUserId_clientId_policy_witness :
    verifyAndGetUserId .twitch "tok" none (FetchOutcome.networkError "x") =
      ({ valid := false, error := some "Twitch Client ID required" }, false) ∧
    verifyAndGetUserId .spotify "tok" (some "cid") (FetchOutcome.networkError "x") =
      verifyAndGetUserId .spotify "tok" none (FetchOutcome.networkError "x") :=
  verifyAndGetUserId_clientId_policy .spotify "tok" (some "cid") none
    (FetchOutcome.networkError "x") (by decide)

/-- Helper: counting the true flags of a `VerifiedFlags` record through the
platform list equals counting the true booleans directly. -/
theorem filter_flags_length (a b c d e : Bool) :
    (List.filter (fun x => x) [a, b, c, d, e]).length =
      (([SocialPlatform.youtube, .spotify, .discord, .twitch, .twitter].filter
        (fun q => flagOf ⟨a, b, c, d, e⟩ q)).length) := by
  cases a <;> cases b <;> cases c <;> cases d <;> cases e <;> rfl

/-- C8.  `verifiedCount` equals the number of platforms whose verified flag is
true, and a platform without a supplied token gets flag `false` with no HTTP
request issued for it. -/
theorem verifyTokens_count_and_no_token (tokens : OAuthTokens)
    (twitchClientId : Option String) (fetchOk : SocialPlatform → Bool)
    (p : SocialPlatform) (h : tokenOf tokens p = none) :
    (verifyTokens tokens twitchClientId fetchOk).2.1 =
      (([SocialPlatform.youtube, .spotify, .discord, .twitch, .twitter].filter
        (fun q => flagOf (verifyTokens tokens twitchClientId fetchOk).1 q)).length) ∧
    flagOf (verifyTokens tokens twitchClientId fetchOk).1 p = false ∧
    p ∉ (verifyTokens tokens twitchClientId fetchOk).2.2 := by
  refine ⟨?_, ?_, ?_⟩
  · exact filter_flags_length _ _ _ _ _
  · cases p <;> simp_all [verifyTokens, flagOf, tokenOf, jsFalsyStr]
  · cases p <;> simp_all [verifyTokens, tokenOf, jsFalsyStr]

/-- Witness for C8: concrete tokens with no discord token. -/
theorem verifyTokens_count_and_no_token_witness :
    tokenOf { youtube := some "yt" } SocialPlatform.discord = none ∧
    ((verifyTokens { youtube := some "yt" } none (fun _ => true)).2.1 =
      (([SocialPlatform.youtube, .spotify, .discord, .twitch, .twitter].filter
        (fun q => flagOf (verifyTokens { youtube := some "yt" } none (fun _ => true)).1 q)).length) ∧
     flagOf (verifyTokens { youtube := some "yt" } none (fun _ => true)).1
       SocialPlatform.discord = false ∧
     SocialPlatform.discord ∉ (verifyTokens { youtube := some "yt" } none (fun _ => true)).2.2) :=
  ⟨by decide,
   verifyTokens_count_and_no_token { youtube := some "yt" } none (fun _ => true)
     SocialPlatform.discord (by decide)⟩

/-- C9.  The `AttestorService` constructor throws exactly when the configured
`predicateId` or `objectId` equals the 32-byte zero value, and it issues no
network request either way (its body only validates and builds local
clients). -/
theorem attestorService_construct_zero_check (config : AttestorConfigShape) :
    exceptIsError (AttestorService.construct config).1 =
      (config.predicateId == ZERO_ADDRESS || config.objectId == ZERO_ADDRESS) ∧
    (AttestorService.construct config).2 = [] := by
  unfold AttestorService.construct
  constructor
  · split
    next h => simp [exceptIsError, h]
    next h =>
      split
      next h2 =>
        simp only [Bool.not_eq_true] at h
        simp [exceptIsError, h, h2]
      next h2 =>
        simp only [Bool.not_eq_true] at h h2
        simp [exceptIsError, h, h2]
  · split
    · rfl
    · split <;> rfl

/-- C1 counterexample.  In a world where the token is valid and all three
atoms and the claim edge already exist (so the unconditional `createTriples`
write reverts), `linkSocialAccount` submits a ledger write and returns a
generic failure: `success := false` with error `Triple creation failed…` and
no already-linked signal — `LinkSocialResult` has no `alreadyLinked` field at
all.  This contradicts the claimed `success:true, alreadyLinked:true` outcome
with no write submitted. -/
theorem scenarioD_counterexample :
    (linkSocialAccount allExistsRevertWorld .discord "0xWallet" "tok" none).1 =
      { success := false, platform := some .discord, userId := some "user123",
        username := some "alice", walletAtomCreated := some false,
        predicateAtomCreated := some false, socialAtomCreated := some false,
        error := some "Triple creation failed. TX: 0xtriplehash" } ∧
    ((linkSocialAccount allExistsRevertWorld .discord "0xWallet" "tok" none).2.any
      isTripleSubmission) = true := by
  constructor
  · rfl
  · rfl

/-- C1 amended.  When all three atoms already exist (and thus also when the
edge exists), the pipeline still submits the edge-creation write; if that
transaction reverts, the outcome is `success := false` with the generic
`Triple creation failed. TX: <hash>` error and all three created flags
`false` — there is no `alreadyLinked` field and no success-equivalent
outcome.  (Only a thrown submission whose message mentions `AtomExists`
is mapped to a distinct already-linked message, still with
`success := false`.) -/
theorem scenarioD_amended (w : World) (platform : SocialPlatform)
    (walletAddress oauthToken : String) (twitchClientId : Option String)
    (uri txh : String)
    (hval : (verifyAndGetUserId platform oauthToken twitchClientId w.oauthFetch).1.valid = true)
    (hid : jsFalsyStr (verifyAndGetUserId platform oauthToken twitchClientId w.oauthFetch).1.userId = false)
    (hpin : w.pinThing
        ((verifyAndGetUserId platform oauthToken twitchClientId w.oauthFetch).1.userId.getD "")
        ("Verified " ++ platformSlug platform ++ " account ID") = .ok uri)
    (hwal : w.isTermCreated (w.calculateAtomId (stringToHex walletAddress)) = true)
    (hpred : w.isTermCreated (w.calculateAtomId (stringToHex (PREDICATE_NAMES platform))) = true)
    (hsoc : w.isTermCreated (w.calculateAtomId (stringToHex uri)) = true)
    (hsend : w.sendOutcome 0 = .ok txh)
    (hrec : w.receiptSuccess 0 = false) :
    (linkSocialAccount w platform walletAddress oauthToken twitchClientId).1 =
      { success := false, platform := some platform,
        userId := some ((verifyAndGetUserId platform oauthToken twitchClientId
          w.oauthFetch).1.userId.getD ""),
        username := (verifyAndGetUserId platform oauthToken twitchClientId
          w.oauthFetch).1.username,
        walletAtomCreated := some false, predicateAtomCreated := some false,
        socialAtomCreated := some false,
        error := some ("Triple creation failed. TX: " ++ txh) } ∧
    ((linkSocialAccount w platform walletAddress oauthToken twitchClientId).2.any
      isTripleSubmission) = true := by
  simp only [linkSocialAccount, walletStage, predicateStage, socialStage, tripleStage,
    hval, hid, hpin, hwal, hpred, hsoc, hsend, hrec]
  simp [isTripleSubmission]

/-- Witness for the amended C1 at the concrete scenario-D world. -/
theorem scenarioD_amended_witness :
    (linkSocialAccount allExistsRevertWorld .discord "0xW" "tok" none).1 =
      { success := false, platform := some .discord,
        userId := some ((verifyAndGetUserId .discord "tok" none
          allExistsRevertWorld.oauthFetch).1.userId.getD ""),
        username := (verifyAndGetUserId .discord "tok" none
          allExistsRevertWorld.oauthFetch).1.username,
        walletAtomCreated := some false, predicateAtomCreated := some false,
        socialAtomCreated := some false,
        error := some ("Triple creation failed. TX: " ++ "0xtriplehash") } ∧
    ((linkSocialAccount allExistsRevertWorld .discord "0xW" "tok" none).2.any
      isTripleSubmission) = true :=
  scenarioD_amended allExistsRevertWorld .discord "0xW" "tok" none
    "ipfs://QmSocial" "0xtriplehash" (by decide) (by decide) rfl
    (by decide) (by decide) (by decide) rfl (by decide)

/-- The catch block never reports success. -/
theorem linkCatchResult_success (pf : SocialPlatform) (m : String) :
    (linkCatchResult pf m).success = false := by
  unfold linkCatchResult; split <;> rfl

/-- The catch block leaves the wallet created flag unset. -/
theorem linkCatchResult_wallet (pf : SocialPlatform) (m : String) :
    (linkCatchResult pf m).walletAtomCreated = none := by
  unfold linkCatchResult; split <;> rfl

/-- The catch block leaves the predicate created flag unset. -/
theorem linkCatchResult_predicate (pf : SocialPlatform) (m : String) :
    (linkCatchResult pf m).predicateAtomCreated = none := by
  unfold linkCatchResult; split <;> rfl

/-- The catch block leaves the social created flag unset. -/
theorem linkCatchResult_social (pf : SocialPlatform) (m : String) :
    (linkCatchResult pf m).socialAtomCreated = none := by
  unfold linkCatchResult; split <;> rfl

/-- Unfolding lemma for `socialStage` with the `createAtomWithData` call
flattened into a direct case analysis on the submission oracle. -/
theorem socialStage_eq (w : World) (platform : SocialPlatform) (userId : String)
    (username : Option String)
    (socialAtomDataHex walletAtomId predicateAtomId socialAtomId : String)
    (socialAtomExists : Bool) (atomCost tripleCost idx : Nat)
    (walletAtomCreated predicateAtomCreated : Bool) :
    socialStage w platform userId username socialAtomDataHex walletAtomId predicateAtomId
      socialAtomId socialAtomExists atomCost tripleCost idx walletAtomCreated
      predicateAtomCreated =
    if socialAtomExists then
      tripleStage w platform userId username walletAtomId predicateAtomId socialAtomId
        tripleCost idx walletAtomCreated predicateAtomCreated false
    else
      match w.sendOutcome idx with
      | .error message =>
          (linkCatchResult platform message,
           [.sendTx (TxCall.createAtoms [socialAtomDataHex]
              [atomCost + BOT_DEPOSIT_CONFIG.ATOM_DEPOSIT])
              (atomCost + BOT_DEPOSIT_CONFIG.ATOM_DEPOSIT) GAS_LIMITS.ATOM_CREATION idx])
      | .ok txHash =>
        if w.receiptSuccess idx then
          ((tripleStage w platform userId username walletAtomId predicateAtomId
              socialAtomId tripleCost (idx + 1) walletAtomCreated predicateAtomCreated
              true).1,
           [.sendTx (TxCall.createAtoms [socialAtomDataHex]
              [atomCost + BOT_DEPOSIT_CONFIG.ATOM_DEPOSIT])
              (atomCost + BOT_DEPOSIT_CONFIG.ATOM_DEPOSIT) GAS_LIMITS.ATOM_CREATION idx,
            .waitReceipt idx true] ++
             (tripleStage w platform userId username walletAtomId predicateAtomId
               socialAtomId tripleCost (idx + 1) walletAtomCreated predicateAtomCreated
               true).2)
        else
          (linkCatchResult platform ("Atom creation failed: " ++ txHash),
           [.sendTx (TxCall.createAtoms [socialAtomDataHex]
              [atomCost + BOT_DEPOSIT_CONFIG.ATOM_DEPOSIT])
              (atomCost + BOT_DEPOSIT_CONFIG.ATOM_DEPOSIT) GAS_LIMITS.ATOM_CREATION idx,
            .waitReceipt idx false]) := by
  cases socialAtomExists with
  | true => rfl
  | false =>
    unfold socialStage createAtomWithData
    cases hso : w.sendOutcome idx with
    | error m => simp
    | ok t => cases hr : w.receiptSuccess idx <;> simp [hr]

/-- Unfolding lemma for `predicateStage` with `createAtomWithData` flattened. -/
theorem predicateStage_eq (w : World) (platform : SocialPlatform) (userId : String)
    (username : Option String)
    (predicateDataHex socialAtomDataHex : String)
    (walletAtomId predicateAtomId socialAtomId : String)
    (predicateAtomExists socialAtomExists : Bool) (atomCost tripleCost idx : Nat)
    (walletAtomCreated : Bool) :
    predicateStage w platform userId username predicateDataHex socialAtomDataHex
      walletAtomId predicateAtomId socialAtomId predicateAtomExists socialAtomExists
      atomCost tripleCost idx walletAtomCreated =
    if predicateAtomExists then
      socialStage w platform userId username socialAtomDataHex walletAtomId
        predicateAtomId socialAtomId socialAtomExists atomCost tripleCost idx
        walletAtomCreated false
    else
      match w.sendOutcome idx with
      | .error message =>
          (linkCatchResult platform message,
           [.sendTx (TxCall.createAtoms [predicateDataHex]
              [atomCost + BOT_DEPOSIT_CONFIG.ATOM_DEPOSIT])
              (atomCost + BOT_DEPOSIT_CONFIG.ATOM_DEPOSIT) GAS_LIMITS.ATOM_CREATION idx])
      | .ok txHash =>
        if w.receiptSuccess idx then
          ((socialStage w platform userId username socialAtomDataHex walletAtomId
              predicateAtomId socialAtomId socialAtomExists atomCost tripleCost (idx + 1)
              walletAtomCreated true).1,
           [.sendTx (TxCall.createAtoms [predicateDataHex]
              [atomCost + BOT_DEPOSIT_CONFIG.ATOM_DEPOSIT])
              (atomCost + BOT_DEPOSIT_CONFIG.ATOM_DEPOSIT) GAS_LIMITS.ATOM_CREATION idx,
            .waitReceipt idx true] ++
             (socialStage w platform userId username socialAtomDataHex walletAtomId
               predicateAtomId socialAtomId socialAtomExists atomCost tripleCost (idx + 1)
               walletAtomCreated true).2)
        else
          (linkCatchResult platform ("Atom creation failed: " ++ txHash),
           [.sendTx (TxCall.createAtoms [predicateDataHex]
              [atomCost + BOT_DEPOSIT_CONFIG.ATOM_DEPOSIT])
              (atomCost + BOT_DEPOSIT_CONFIG.ATOM_DEPOSIT) GAS_LIMITS.ATOM_CREATION idx,
            .waitReceipt idx false]) := by
  cases predicateAtomExists with
  | true => rfl
  | false =>
    unfold predicateStage createAtomWithData
    cases hso : w.sendOutcome idx with
    | error m => simp
    | ok t => cases hr : w.receiptSuccess idx <;> simp [hr]

/-- Unfolding lemma for `walletStage` with `createAtomWithData` flattened. -/
theorem walletStage_eq (w : World) (platform : SocialPlatform) (userId : String)
    (username : Option String)
    (walletAtomData predicateDataHex socialAtomDataHex : String)
    (walletAtomId predicateAtomId socialAtomId : String)
    (walletAtomExists predicateAtomExists socialAtomExists : Bool)
    (atomCost tripleCost : Nat) :
    walletStage w platform userId username walletAtomData predicateDataHex
      socialAtomDataHex walletAtomId predicateAtomId socialAtomId walletAtomExists
      predicateAtomExists socialAtomExists atomCost tripleCost =
    if walletAtomExists then
      predicateStage w platform userId username predicateDataHex socialAtomDataHex
        walletAtomId predicateAtomId socialAtomId predicateAtomExists socialAtomExists
        atomCost tripleCost 0 false
    else
      match w.sendOutcome 0 with
      | .error message =>
          (linkCatchResult platform message,
           [.sendTx (TxCall.createAtoms [walletAtomData]
              [atomCost + BOT_DEPOSIT_CONFIG.ATOM_DEPOSIT])
              (atomCost + BOT_DEPOSIT_CONFIG.ATOM_DEPOSIT) GAS_LIMITS.ATOM_CREATION 0])
      | .ok txHash =>
        if w.receiptSuccess 0 then
          ((predicateStage w platform userId username predicateDataHex socialAtomDataHex
              walletAtomId predicateAtomId socialAtomId predicateAtomExists
              socialAtomExists atomCost tripleCost 1 true).1,
           [.sendTx (TxCall.createAtoms [walletAtomData]
              [atomCost + BOT_DEPOSIT_CONFIG.ATOM_DEPOSIT])
              (atomCost + BOT_DEPOSIT_CONFIG.ATOM_DEPOSIT) GAS_LIMITS.ATOM_CREATION 0,
            .waitReceipt 0 true] ++
             (predicateStage w platform userId username predicateDataHex socialAtomDataHex
               walletAtomId predicateAtomId socialAtomId predicateAtomExists
               socialAtomExists atomCost tripleCost 1 true).2)
        else
          (linkCatchResult platform ("Atom creation failed: " ++ txHash),
           [.sendTx (TxCall.createAtoms [walletAtomData]
              [atomCost + BOT_DEPOSIT_CONFIG.ATOM_DEPOSIT])
              (atomCost + BOT_DEPOSIT_CONFIG.ATOM_DEPOSIT) GAS_LIMITS.ATOM_CREATION 0,
            .waitReceipt 0 false]) := by
  cases walletAtomExists with
  | true => rfl
  | false =>
    unfold walletStage createAtomWithData
    cases hso : w.sendOutcome 0 with
    | error m => simp
    | ok t => cases hr : w.receiptSuccess 0 <;> simp [hr]

/-- Index monotonicity for `eventIdxGe`. -/
theorem eventIdxGe_mono (a b : Nat) (e : Event) (hab : a ≤ b)
    (h : eventIdxGe b e = true) : eventIdxGe a e = true := by
  cases e <;> simp [eventIdxGe] at h ⊢ <;> omega

/-- All events of the edge-creation stage carry its transaction index. -/
theorem tripleStage_idxGe (w : World) (pf : SocialPlatform) (u : String)
    (un : Option String) (wId pId sId : String) (tc idx : Nat) (wC pC sC : Bool) :
    ∀ e ∈ (tripleStage w pf u un wId pId sId tc idx wC pC sC).2,
      eventIdxGe idx e = true := by
  intro e he
  rcases hso : w.sendOutcome idx with m | t <;> simp only [tripleStage, hso] at he
  · simp at he; subst he; simp [eventIdxGe]
  · cases hr : w.receiptSuccess idx <;> simp [hr] at he <;>
      rcases he with he | he <;> subst he <;> simp [eventIdxGe]

/-- No atom submission occurs in the edge-creation stage. -/
theorem tripleStage_no_atomSend (w : World) (pf : SocialPlatform) (u : String)
    (un : Option String) (wId pId sId : String) (tc idx : Nat) (wC pC sC : Bool) :
    ∀ e ∈ (tripleStage w pf u un wId pId sId tc idx wC pC sC).2,
      isAtomSubmission e = false := by
  intro e he
  rcases hso : w.sendOutcome idx with m | t <;> simp only [tripleStage, hso] at he
  · simp at he; subst he; rfl
  · cases hr : w.receiptSuccess idx <;> simp [hr] at he <;>
      rcases he with he | he <;> subst he <;> rfl

/-- Part-A inversion at the bottom stage: a failed receipt for the submitted
triple yields the failure result that carries the three created flags. -/
theorem tripleStage_fail (w : World) (pf : SocialPlatform) (u : String)
    (un : Option String) (wId pId sId : String) (tc idx : Nat) (wC pC sC : Bool)
    (s p o : List String) (a : List Nat) (v g i : Nat)
    (h1 : Event.sendTx (TxCall.createTriples s p o a) v g i ∈
      (tripleStage w pf u un wId pId sId tc idx wC pC sC).2)
    (h2 : Event.waitReceipt i false ∈
      (tripleStage w pf u un wId pId sId tc idx wC pC sC).2) :
    (tripleStage w pf u un wId pId sId tc idx wC pC sC).1.success = false ∧
    (tripleStage w pf u un wId pId sId tc idx wC pC sC).1.walletAtomCreated = some wC ∧
    (tripleStage w pf u un wId pId sId tc idx wC pC sC).1.predicateAtomCreated = some pC ∧
    (tripleStage w pf u un wId pId sId tc idx wC pC sC).1.socialAtomCreated = some sC := by
  rcases hso : w.sendOutcome idx with m | t <;>
    simp only [tripleStage, hso] at h1 h2 ⊢
  · simp at h2
  · cases hr : w.receiptSuccess idx
    · simp [hr]
    · simp [hr] at h2

/-- All events of the social-atom stage carry at least its starting index. -/
theorem socialStage_idxGe (w : World) (pf : SocialPlatform) (u : String)
    (un : Option String) (sData wId pId sId : String) (sEx : Bool)
    (ac tc idx : Nat) (wC pC : Bool) :
    ∀ e ∈ (socialStage w pf u un sData wId pId sId sEx ac tc idx wC pC).2,
      eventIdxGe idx e = true := by
  intro e he
  rw [socialStage_eq] at he
  cases sEx with
  | true =>
    rw [if_pos rfl] at he
    exact tripleStage_idxGe w pf u un wId pId sId tc idx wC pC false e he
  | false =>
    rw [if_neg Bool.false_ne_true] at he
    rcases hso : w.sendOutcome idx with m | t <;> simp only [hso] at he
    · simp at he; subst he; simp [eventIdxGe]
    · cases hr : w.receiptSuccess idx with
      | false =>
        simp [hr] at he
        rcases he with he | he <;> subst he <;> simp [eventIdxGe]
      | true =>
        simp [hr] at he
        rcases he with he | he | he
        · subst he; simp [eventIdxGe]
        · subst he; simp [eventIdxGe]
        · exact eventIdxGe_mono idx (idx + 1) e (Nat.le_succ idx)
            (tripleStage_idxGe w pf u un wId pId sId tc (idx + 1) wC pC true e he)

/-- Part-B inversion for the social-atom stage: a failed receipt for an atom
submission means the stage aborted through the catch block, whose result
carries no created flags. -/
theorem socialStage_atomFail (w : World) (pf : SocialPlatform) (u : String)
    (un : Option String) (sData wId pId sId : String) (sEx : Bool)
    (ac tc idx : Nat) (wC pC : Bool)
    (d : List String) (a2 : List Nat) (v2 g2 j : Nat)
    (h3 : Event.sendTx (TxCall.createAtoms d a2) v2 g2 j ∈
      (socialStage w pf u un sData wId pId sId sEx ac tc idx wC pC).2)
    (h4 : Event.waitReceipt j false ∈
      (socialStage w pf u un sData wId pId sId sEx ac tc idx wC pC).2) :
    (socialStage w pf u un sData wId pId sId sEx ac tc idx wC pC).1.success = false ∧
    (socialStage w pf u un sData wId pId sId sEx ac tc idx wC pC).1.walletAtomCreated = none ∧
    (socialStage w pf u un sData wId pId sId sEx ac tc idx wC pC).1.predicateAtomCreated = none ∧
    (socialStage w pf u un sData wId pId sId sEx ac tc idx wC pC).1.socialAtomCreated = none := by
  rw [socialStage_eq] at h3 h4 ⊢
  cases sEx with
  | true =>
    rw [if_pos rfl] at h3
    have h := tripleStage_no_atomSend w pf u un wId pId sId tc idx wC pC false _ h3
    simp [isAtomSubmission] at h
  | false =>
    rw [if_neg Bool.false_ne_true] at h3 h4 ⊢
    rcases hso : w.sendOutcome idx with m | t <;> simp only [hso] at h3 h4 ⊢
    · simp at h4
    · cases hr : w.receiptSuccess idx with
      | false =>
        simp [hr, linkCatchResult_success, linkCatchResult_wallet,
          linkCatchResult_predicate, linkCatchResult_social]
      | true =>
        simp [hr] at h3 h4
        have hge := tripleStage_idxGe w pf u un wId pId sId tc (idx + 1) wC pC true _ h4
        simp [eventIdxGe] at hge
        rcases h3 with h3 | h3
        · have hj : j = idx := by tauto
          omega
        · have h := tripleStage_no_atomSend w pf u un wId pId sId tc (idx + 1) wC pC true _ h3
          simp [isAtomSubmission] at h

/-- Part-A inversion for the social-atom stage: a failed receipt for the
submitted triple yields a failure result carrying all three created flags. -/
theorem socialStage_tripleFail (w : World) (pf : SocialPlatform) (u : String)
    (un : Option String) (sData wId pId sId : String) (sEx : Bool)
    (ac tc idx : Nat) (wC pC : Bool)
    (s p o : List String) (a : List Nat) (v g i : Nat)
    (h1 : Event.sendTx (TxCall.createTriples s p o a) v g i ∈
      (socialStage w pf u un sData wId pId sId sEx ac tc idx wC pC).2)
    (h2 : Event.waitReceipt i false ∈
      (socialStage w pf u un sData wId pId sId sEx ac tc idx wC pC).2) :
    (socialStage w pf u un sData wId pId sId sEx ac tc idx wC pC).1.success = false ∧
    (socialStage w pf u un sData wId pId sId sEx ac tc idx wC pC).1.walletAtomCreated = some wC ∧
    (socialStage w pf u un sData wId pId sId sEx ac tc idx wC pC).1.predicateAtomCreated = some pC ∧
    (socialStage w pf u un sData wId pId sId sEx ac tc idx wC pC).1.socialAtomCreated ≠ none := by
  rw [socialStage_eq] at h1 h2 ⊢
  cases sEx with
  | true =>
    rw [if_pos rfl] at h1 h2 ⊢
    have h := tripleStage_fail w pf u un wId pId sId tc idx wC pC false s p o a v g i h1 h2
    exact ⟨h.1, h.2.1, h.2.2.1, by simp [h.2.2.2]⟩
  | false =>
    rw [if_neg Bool.false_ne_true] at h1 h2 ⊢
    rcases hso : w.sendOutcome idx with m | t <;> simp only [hso] at h1 h2 ⊢
    · simp at h1
    · cases hr : w.receiptSuccess idx with
      | false =>
        simp [hr] at h1
      | true =>
        simp only [hr, if_pos rfl] at h1 h2 ⊢
        simp at h1 h2
        have h := tripleStage_fail w pf u un wId pId sId tc (idx + 1) wC pC true
          s p o a v g i h1 h2
        exact ⟨h.1, h.2.1, h.2.2.1, by simp [h.2.2.2]⟩

/-- All events of the predicate-atom stage carry at least its starting index. -/
theorem predicateStage_idxGe (w : World) (pf : SocialPlatform) (u : String)
    (un : Option String) (pData sData wId pId sId : String) (pEx sEx : Bool)
    (ac tc idx : Nat) (wC : Bool) :
    ∀ e ∈ (predicateStage w pf u un pData sData wId pId sId pEx sEx ac tc idx wC).2,
      eventIdxGe idx e = true := by
  intro e he
  rw [predicateStage_eq] at he
  cases pEx with
  | true =>
    rw [if_pos rfl] at he
    exact socialStage_idxGe w pf u un sData wId pId sId sEx ac tc idx wC false e he
  | false =>
    rw [if_neg Bool.false_ne_true] at he
    rcases hso : w.sendOutcome idx with m | t <;> simp only [hso] at he
    · simp at he; subst he; simp [eventIdxGe]
    · cases hr : w.receiptSuccess idx with
      | false =>
        simp [hr] at he
        rcases he with he | he <;> subst he <;> simp [eventIdxGe]
      | true =>
        simp [hr] at he
        rcases he with he | he | he
        · subst he; simp [eventIdxGe]
        · subst he; simp [eventIdxGe]
        · exact eventIdxGe_mono idx (idx + 1) e (Nat.le_succ idx)
            (socialStage_idxGe w pf u un sData wId pId sId sEx ac tc (idx + 1) wC true e he)

/-- Part-B inversion for the predicate-atom stage. -/
theorem predicateStage_atomFail (w : World) (pf : SocialPlatform) (u : String)
    (un : Option String) (pData sData wId pId sId : String) (pEx sEx : Bool)
    (ac tc idx : Nat) (wC : Bool)
    (d : List String) (a2 : List Nat) (v2 g2 j : Nat)
    (h3 : Event.sendTx (TxCall.createAtoms d a2) v2 g2 j ∈
      (predicateStage w pf u un pData sData wId pId sId pEx sEx ac tc idx wC).2)
    (h4 : Event.waitReceipt j false ∈
      (predicateStage w pf u un pData sData wId pId sId pEx sEx ac tc idx wC).2) :
    (predicateStage w pf u un pData sData wId pId sId pEx sEx ac tc idx wC).1.success = false ∧
    (predicateStage w pf u un pData sData wId pId sId pEx sEx ac tc idx wC).1.walletAtomCreated = none ∧
    (predicateStage w pf u un pData sData wId pId sId pEx sEx ac tc idx wC).1.predicateAtomCreated = none ∧
    (predicateStage w pf u un pData sData wId pId sId pEx sEx ac tc idx wC).1.socialAtomCreated = none := by
  rw [predicateStage_eq] at h3 h4 ⊢
  cases pEx with
  | true =>
    rw [if_pos rfl] at h3 h4 ⊢
    exact socialStage_atomFail w pf u un sData wId pId sId sEx ac tc idx wC false
      d a2 v2 g2 j h3 h4
  | false =>
    rw [if_neg Bool.false_ne_true] at h3 h4 ⊢
    rcases hso : w.sendOutcome idx with m | t <;> simp only [hso] at h3 h4 ⊢
    · simp at h4
    · cases hr : w.receiptSuccess idx with
      | false =>
        simp [hr, linkCatchResult_success, linkCatchResult_wallet,
          linkCatchResult_predicate, linkCatchResult_social]
      | true =>
        simp only [hr, if_pos rfl] at h3 h4 ⊢
        simp at h3 h4
        have hge := socialStage_idxGe w pf u un sData wId pId sId sEx ac tc (idx + 1)
          wC true _ h4
        simp [eventIdxGe] at hge
        rcases h3 with h3 | h3
        · have hj : j = idx := by tauto
          omega
        · exact socialStage_atomFail w pf u un sData wId pId sId sEx ac tc (idx + 1)
            wC true d a2 v2 g2 j h3 h4

/-- Part-A inversion for the predicate-atom stage. -/
theorem predicateStage_tripleFail (w : World) (pf : SocialPlatform) (u : String)
    (un : Option String) (pData sData wId pId sId : String) (pEx sEx : Bool)
    (ac tc idx : Nat) (wC : Bool)
    (s p o : List String) (a : List Nat) (v g i : Nat)
    (h1 : Event.sendTx (TxCall.createTriples s p o a) v g i ∈
      (predicateStage w pf u un pData sData wId pId sId pEx sEx ac tc idx wC).2)
    (h2 : Event.waitReceipt i false ∈
      (predicateStage w pf u un pData sData wId pId sId pEx sEx ac tc idx wC).2) :
    (predicateStage w pf u un pData sData wId pId sId pEx sEx ac tc idx wC).1.success = false ∧
    (predicateStage w pf u un pData sData wId pId sId pEx sEx ac tc idx wC).1.walletAtomCreated = some wC ∧
    (predicateStage w pf u un pData sData wId pId sId pEx sEx ac tc idx wC).1.predicateAtomCreated ≠ none ∧
    (predicateStage w pf u un pData sData wId pId sId pEx sEx ac tc idx wC).1.socialAtomCreated ≠ none := by
  rw [predicateStage_eq] at h1 h2 ⊢
  cases pEx with
  | true =>
    rw [if_pos rfl] at h1 h2 ⊢
    have h := socialStage_tripleFail w pf u un sData wId pId sId sEx ac tc idx wC false
      s p o a v g i h1 h2
    exact ⟨h.1, h.2.1, by simp [h.2.2.1], h.2.2.2⟩
  | false =>
    rw [if_neg Bool.false_ne_true] at h1 h2 ⊢
    rcases hso : w.sendOutcome idx with m | t <;> simp only [hso] at h1 h2 ⊢
    · simp at h1
    · cases hr : w.receiptSuccess idx with
      | false =>
        simp [hr] at h1
      | true =>
        simp only [hr, if_pos rfl] at h1 h2 ⊢
        simp at h1 h2
        have h := socialStage_tripleFail w pf u un sData wId pId sId sEx ac tc (idx + 1)
          wC true s p o a v g i h1 h2
        exact ⟨h.1, h.2.1, by simp [h.2.2.1], h.2.2.2⟩

/-- Part-B inversion for the wallet-atom stage. -/
theorem walletStage_atomFail (w : World) (pf : SocialPlatform) (u : String)
    (un : Option String) (wData pData sData wId pId sId : String)
    (wEx pEx sEx : Bool) (ac tc : Nat)
    (d : List String) (a2 : List Nat) (v2 g2 j : Nat)
    (h3 : Event.sendTx (TxCall.createAtoms d a2) v2 g2 j ∈
      (walletStage w pf u un wData pData sData wId pId sId wEx pEx sEx ac tc).2)
    (h4 : Event.waitReceipt j false ∈
      (walletStage w pf u un wData pData sData wId pId sId wEx pEx sEx ac tc).2) :
    (walletStage w pf u un wData pData sData wId pId sId wEx pEx sEx ac tc).1.success = false ∧
    (walletStage w pf u un wData pData sData wId pId sId wEx pEx sEx ac tc).1.walletAtomCreated = none ∧
    (walletStage w pf u un wData pData sData wId pId sId wEx pEx sEx ac tc).1.predicateAtomCreated = none ∧
    (walletStage w pf u un wData pData sData wId pId sId wEx pEx sEx ac tc).1.socialAtomCreated = none := by
  rw [walletStage_eq] at h3 h4 ⊢
  cases wEx with
  | true =>
    rw [if_pos rfl] at h3 h4 ⊢
    exact predicateStage_atomFail w pf u un pData sData wId pId sId pEx sEx ac tc 0 false
      d a2 v2 g2 j h3 h4
  | false =>
    rw [if_neg Bool.false_ne_true] at h3 h4 ⊢
    rcases hso : w.sendOutcome 0 with m | t <;> simp only [hso] at h3 h4 ⊢
    · simp at h4
    · cases hr : w.receiptSuccess 0 with
      | false =>
        simp [hr, linkCatchResult_success, linkCatchResult_wallet,
          linkCatchResult_predicate, linkCatchResult_social]
      | true =>
        simp only [hr, if_pos rfl] at h3 h4 ⊢
        simp at h3 h4
        have hge := predicateStage_idxGe w pf u un pData sData wId pId sId pEx sEx
          ac tc 1 true _ h4
        simp [eventIdxGe] at hge
        rcases h3 with h3 | h3
        · have hj : j = 0 := by tauto
          omega
        · exact predicateStage_atomFail w pf u un pData sData wId pId sId pEx sEx
            ac tc 1 true d a2 v2 g2 j h3 h4

/-- Part-A inversion for the wallet-atom stage. -/
theorem walletStage_tripleFail (w : World) (pf : SocialPlatform) (u : String)
    (un : Option String) (wData pData sData wId pId sId : String)
    (wEx pEx sEx : Bool) (ac tc : Nat)
    (s p o : List String) (a : List Nat) (v g i : Nat)
    (h1 : Event.sendTx (TxCall.createTriples s p o a) v g i ∈
      (walletStage w pf u un wData pData sData wId pId sId wEx pEx sEx ac tc).2)
    (h2 : Event.waitReceipt i false ∈
      (walletStage w pf u un wData pData sData wId pId sId wEx pEx sEx ac tc).2) :
    (walletStage w pf u un wData pData sData wId pId sId wEx pEx sEx ac tc).1.success = false ∧
    (walletStage w pf u un wData pData sData wId pId sId wEx pEx sEx ac tc).1.walletAtomCreated ≠ none ∧
    (walletStage w pf u un wData pData sData wId pId sId wEx pEx sEx ac tc).1.predicateAtomCreated ≠ none ∧
    (walletStage w pf u un wData pData sData wId pId sId wEx pEx sEx ac tc).1.socialAtomCreated ≠ none := by
  rw [walletStage_eq] at h1 h2 ⊢
  cases wEx with
  | true =>
    rw [if_pos rfl] at h1 h2 ⊢
    have h := predicateStage_tripleFail w pf u un pData sData wId pId sId pEx sEx
      ac tc 0 false s p o a v g i h1 h2
    exact ⟨h.1, by simp [h.2.1], h.2.2.1, h.2.2.2⟩
  | false =>
    rw [if_neg Bool.false_ne_true] at h1 h2 ⊢
    rcases hso : w.sendOutcome 0 with m | t <;> simp only [hso] at h1 h2 ⊢
    · simp at h1
    · cases hr : w.receiptSuccess 0 with
      | false =>
        simp [hr] at h1
      | true =>
        simp only [hr, if_pos rfl] at h1 h2 ⊢
        simp at h1 h2
        have h := predicateStage_tripleFail w pf u un pData sData wId pId sId pEx sEx
          ac tc 1 true s p o a v g i h1 h2
        exact ⟨h.1, by simp [h.2.1], h.2.2.1, h.2.2.2⟩

/-- Inversion of the pipeline wrapper: a transaction event (submission or
receipt wait) in the trace of `linkSocialAccount` can only come from the
node/edge-creation stages, which also determine the returned result.  The
verification guard must have passed and pinning must have returned a URI. -/
theorem linkSocialAccount_tx_inversion (w : World) (platform : SocialPlatform)
    (walletAddress oauthToken : String) (twitchClientId : Option String) (e : Event)
    (he : e ∈ (linkSocialAccount w platform walletAddress oauthToken twitchClientId).2)
    (htx : eventIsTx e = true) :
    ∃ uri,
      w.pinThing
        ((verifyAndGetUserId platform oauthToken twitchClientId w.oauthFetch).1.userId.getD "")
        ("Verified " ++ platformSlug platform ++ " account ID") = .ok uri ∧
      e ∈ (walletStage w platform
            ((verifyAndGetUserId platform oauthToken twitchClientId w.oauthFetch).1.userId.getD "")
            (verifyAndGetUserId platform oauthToken twitchClientId w.oauthFetch).1.username
            (stringToHex walletAddress) (stringToHex (PREDICATE_NAMES platform))
            (stringToHex uri)
            (w.calculateAtomId (stringToHex walletAddress))
            (w.calculateAtomId (stringToHex (PREDICATE_NAMES platform)))
            (w.calculateAtomId (stringToHex uri))
            (w.isTermCreated (w.calculateAtomId (stringToHex walletAddress)))
            (w.isTermCreated (w.calculateAtomId (stringToHex (PREDICATE_NAMES platform))))
            (w.isTermCreated (w.calculateAtomId (stringToHex uri)))
            w.getAtomCost w.getTripleCost).2 ∧
      (linkSocialAccount w platform walletAddress oauthToken twitchClientId).1 =
        (walletStage w platform
            ((verifyAndGetUserId platform oauthToken twitchClientId w.oauthFetch).1.userId.getD "")
            (verifyAndGetUserId platform oauthToken twitchClientId w.oauthFetch).1.username
            (stringToHex walletAddress) (stringToHex (PREDICATE_NAMES platform))
            (stringToHex uri)
            (w.calculateAtomId (stringToHex walletAddress))
            (w.calculateAtomId (stringToHex (PREDICATE_NAMES platform)))
            (w.calculateAtomId (stringToHex uri))
            (w.isTermCreated (w.calculateAtomId (stringToHex walletAddress)))
            (w.isTermCreated (w.calculateAtomId (stringToHex (PREDICATE_NAMES platform))))
            (w.isTermCreated (w.calculateAtomId (stringToHex uri)))
            w.getAtomCost w.getTripleCost).1 ∧
      (∀ e2 ∈ (walletStage w platform
            ((verifyAndGetUserId platform oauthToken twitchClientId w.oauthFetch).1.userId.getD "")
            (verifyAndGetUserId platform oauthToken twitchClientId w.oauthFetch).1.username
            (stringToHex walletAddress) (stringToHex (PREDICATE_NAMES platform))
            (stringToHex uri)
            (w.calculateAtomId (stringToHex walletAddress))
            (w.calculateAtomId (stringToHex (PREDICATE_NAMES platform)))
            (w.calculateAtomId (stringToHex uri))
            (w.isTermCreated (w.calculateAtomId (stringToHex walletAddress)))
            (w.isTermCreated (w.calculateAtomId (stringToHex (PREDICATE_NAMES platform))))
            (w.isTermCreated (w.calculateAtomId (stringToHex uri)))
            w.getAtomCost w.getTripleCost).2,
        e2 ∈ (linkSocialAccount w platform walletAddress oauthToken twitchClientId).2) := by
  cases hv : (!(verifyAndGetUserId platform oauthToken twitchClientId
      w.oauthFetch).1.valid ||
      jsFalsyStr (verifyAndGetUserId platform oauthToken twitchClientId
        w.oauthFetch).1.userId) with
  | true =>
    cases hoc : (verifyAndGetUserId platform oauthToken twitchClientId w.oauthFetch).2 <;>
      simp only [linkSocialAccount, hv, hoc] at he <;>
      simp at he <;> (subst he; simp [eventIsTx] at htx)
  | false =>
    rcases hpin : w.pinThing
        ((verifyAndGetUserId platform oauthToken twitchClientId
          w.oauthFetch).1.userId.getD "")
        ("Verified " ++ platformSlug platform ++ " account ID") with m | uri
    · cases hoc : (verifyAndGetUserId platform oauthToken twitchClientId w.oauthFetch).2 <;>
        simp only [linkSocialAccount, hv, hoc, hpin] at he <;>
        simp at he <;>
        (repeat' rcases he with he | he) <;>
        (try subst he) <;>
        simp [eventIsTx] at htx
    · refine ⟨uri, rfl, ?_, ?_, ?_⟩
      · cases hoc : (verifyAndGetUserId platform oauthToken twitchClientId w.oauthFetch).2 <;>
          simp only [linkSocialAccount, hv, hoc, hpin] at he <;>
          simp at he <;>
          (repeat' rcases he with he | he) <;>
          (try subst he) <;>
          first
            | simpa using he
            | (simp [eventIsTx] at htx)
      · simp only [linkSocialAccount, hv, hpin]
        simp
      · intro x hx
        simp only [linkSocialAccount, hv, hpin]
        simp [hx]

/-- C2 counterexample.  In a world where node creation has begun (the wallet
atom creation was submitted) and its confirmation reports failure,
`linkSocialAccount` returns a failure carrying only the error message: all
three created flags are absent, although the claim requires them on every
failure past the start of node creation. -/
theorem createdFlags_counterexample :
    (linkSocialAccount nodeFailWorld .discord "0xWallet" "tok" none).1 =
      { success := false, error := some "Atom creation failed: 0xatomhash" } ∧
    (linkSocialAccount nodeFailWorld .discord "0xWallet" "tok" none).1.walletAtomCreated
      = none ∧
    (linkSocialAccount nodeFailWorld .discord "0xWallet" "tok" none).1.predicateAtomCreated
      = none ∧
    (linkSocialAccount nodeFailWorld .discord "0xWallet" "tok" none).1.socialAtomCreated
      = none ∧
    ((linkSocialAccount nodeFailWorld .discord "0xWallet" "tok" none).2.any
      isAtomSubmission) = true := by
  exact ⟨rfl, rfl, rfl, rfl, rfl⟩

/-- C2 amended.  The three created flags are reported exactly on the
edge-creation-confirmation-failure path: when the trace shows the triple
submission and a failed receipt for it, the failure result carries all three
flags; but when a node-creation confirmation fails (failed receipt for an
atom submission), the failure result carries only an error message — all
three created flags are absent, as they also are when a submission throws
(both paths return through the same catch block). -/
theorem createdFlags_amended
    (w : World) (platform : SocialPlatform) (walletAddress oauthToken : String)
    (twitchClientId : Option String)
    (s p o : List String) (a : List Nat) (v g i : Nat)
    (h1 : Event.sendTx (TxCall.createTriples s p o a) v g i ∈
      (linkSocialAccount w platform walletAddress oauthToken twitchClientId).2)
    (h2 : Event.waitReceipt i false ∈
      (linkSocialAccount w platform walletAddress oauthToken twitchClientId).2)
    (w2 : World) (platform2 : SocialPlatform) (walletAddress2 oauthToken2 : String)
    (twitchClientId2 : Option String)
    (d : List String) (a2 : List Nat) (v2 g2 j : Nat)
    (h3 : Event.sendTx (TxCall.createAtoms d a2) v2 g2 j ∈
      (linkSocialAccount w2 platform2 walletAddress2 oauthToken2 twitchClientId2).2)
    (h4 : Event.waitReceipt j false ∈
      (linkSocialAccount w2 platform2 walletAddress2 oauthToken2 twitchClientId2).2) :
    ((linkSocialAccount w platform walletAddress oauthToken twitchClientId).1.success = false ∧
     (linkSocialAccount w platform walletAddress oauthToken twitchClientId).1.walletAtomCreated
       ≠ none ∧
     (linkSocialAccount w platform walletAddress oauthToken twitchClientId).1.predicateAtomCreated
       ≠ none ∧
     (linkSocialAccount w platform walletAddress oauthToken twitchClientId).1.socialAtomCreated
       ≠ none) ∧
    ((linkSocialAccount w2 platform2 walletAddress2 oauthToken2 twitchClientId2).1.success = false ∧
     (linkSocialAccount w2 platform2 walletAddress2 oauthToken2 twitchClientId2).1.walletAtomCreated
       = none ∧
     (linkSocialAccount w2 platform2 walletAddress2 oauthToken2 twitchClientId2).1.predicateAtomCreated
       = none ∧
     (linkSocialAccount w2 platform2 walletAddress2 oauthToken2 twitchClientId2).1.socialAtomCreated
       = none) := by
  constructor
  · obtain ⟨uri, hpin, hm1, hres, -⟩ := linkSocialAccount_tx_inversion w platform
      walletAddress oauthToken twitchClientId _ h1 rfl
    obtain ⟨uri2, hpin2, hm2, -, -⟩ := linkSocialAccount_tx_inversion w platform
      walletAddress oauthToken twitchClientId _ h2 rfl
    rw [hpin] at hpin2
    cases hpin2
    rw [hres]
    exact walletStage_tripleFail w platform _ _ _ _ _ _ _ _ _ _ _ _ _
      s p o a v g i hm1 hm2
  · obtain ⟨uri, hpin, hm3, hres, -⟩ := linkSocialAccount_tx_inversion w2 platform2
      walletAddress2 oauthToken2 twitchClientId2 _ h3 rfl
    obtain ⟨uri2, hpin2, hm4, -, -⟩ := linkSocialAccount_tx_inversion w2 platform2
      walletAddress2 oauthToken2 twitchClientId2 _ h4 rfl
    rw [hpin] at hpin2
    cases hpin2
    rw [hres]
    exact walletStage_atomFail w2 platform2 _ _ _ _ _ _ _ _ _ _ _ _ _
      d a2 v2 g2 j hm3 hm4

/-- Witness for the amended C2 at two concrete worlds: one failing at the
edge-creation confirmation, one failing at the wallet-atom confirmation. -/
theorem createdFlags_amended_witness :
    ((linkSocialAccount edgeFailWorld .discord "0xW" "tok" none).1.success = false ∧
     (linkSocialAccount edgeFailWorld .discord "0xW" "tok" none).1.walletAtomCreated
       ≠ none ∧
     (linkSocialAccount edgeFailWorld .discord "0xW" "tok" none).1.predicateAtomCreated
       ≠ none ∧
     (linkSocialAccount edgeFailWorld .discord "0xW" "tok" none).1.socialAtomCreated
       ≠ none) ∧
    ((linkSocialAccount nodeFailWorld .discord "0xW" "tok" none).1.success = false ∧
     (linkSocialAccount nodeFailWorld .discord "0xW" "tok" none).1.walletAtomCreated
       = none ∧
     (linkSocialAccount nodeFailWorld .discord "0xW" "tok" none).1.predicateAtomCreated
       = none ∧
     (linkSocialAccount nodeFailWorld .discord "0xW" "tok" none).1.socialAtomCreated
       = none) :=
  createdFlags_amended edgeFailWorld .discord "0xW" "tok" none
    [edgeFailWorld.calculateAtomId (stringToHex "0xW")]
    [edgeFailWorld.calculateAtomId (stringToHex (PREDICATE_NAMES .discord))]
    [edgeFailWorld.calculateAtomId (stringToHex "ipfs://QmSocial")]
    [edgeFailWorld.getTripleCost + BOT_DEPOSIT_CONFIG.TRIPLE_EXTRA]
    (edgeFailWorld.getTripleCost + BOT_DEPOSIT_CONFIG.TRIPLE_EXTRA)
    GAS_LIMITS.TRIPLE_CREATION 3 (by decide) (by decide)
    nodeFailWorld .discord "0xW" "tok" none
    [stringToHex "0xW"]
    [nodeFailWorld.getAtomCost + BOT_DEPOSIT_CONFIG.ATOM_DEPOSIT]
    (nodeFailWorld.getAtomCost + BOT_DEPOSIT_CONFIG.ATOM_DEPOSIT)
    GAS_LIMITS.ATOM_CREATION 0 (by decide) (by decide)

/-- C4.  When token verification reports invalid (or extracts no user id), both
pipeline copies halt at the verification step with `success := false`; the
trace holds at most the OAuth verification call itself — no pinning call and
no ledger read or write. -/
theorem invalidToken_halts (w : World) (platform : SocialPlatform)
    (walletAddress oauthToken : String) (twitchClientId : Option String)
    (h : (!(verifyAndGetUserId platform oauthToken twitchClientId w.oauthFetch).1.valid ||
      jsFalsyStr (verifyAndGetUserId platform oauthToken twitchClientId
        w.oauthFetch).1.userId) = true)
    (w2 : World) (walletAddress2 : String) (platform2 : SocialPlatform)
    (oauthToken2 : String) (botPrivateKey envTwitchClientId : Option String)
    (h2 : (!(verifyAndGetUserIdW platform2 oauthToken2 none envTwitchClientId
        w2.oauthFetch).1.valid ||
      jsFalsyStr (verifyAndGetUserIdW platform2 oauthToken2 none envTwitchClientId
        w2.oauthFetch).1.userId) = true) :
    ((linkSocialAccount w platform walletAddress oauthToken twitchClientId).1.success
        = false ∧
     onlyOAuthEvents
       (linkSocialAccount w platform walletAddress oauthToken twitchClientId).2 = true) ∧
    ((executeLinkSocial w2 walletAddress2 platform2 oauthToken2 botPrivateKey
        envTwitchClientId).1.success = false ∧
     onlyOAuthEvents
       (executeLinkSocial w2 walletAddress2 platform2 oauthToken2 botPrivateKey
         envTwitchClientId).2 = true) := by
  constructor
  · cases hoc : (verifyAndGetUserId platform oauthToken twitchClientId w.oauthFetch).2 <;>
      simp [linkSocialAccount, h, hoc, onlyOAuthEvents]
  · cases hwa : jsFalsyStr (some walletAddress2) with
    | true => simp [executeLinkSocial, hwa, onlyOAuthEvents]
    | false =>
      cases hot : jsFalsyStr (some oauthToken2) with
      | true => simp [executeLinkSocial, hwa, hot, onlyOAuthEvents]
      | false =>
        cases hoc2 : (verifyAndGetUserIdW platform2 oauthToken2 none envTwitchClientId
            w2.oauthFetch).2 <;>
          simp [executeLinkSocial, hwa, hot, h2, hoc2, onlyOAuthEvents]

/-- Witness for C4 at a concrete expired-token world (provider answers 401). -/
theorem invalidToken_halts_witness :
    ((linkSocialAccount expiredTokenWorld .discord "0xW" "tok" none).1.success = false ∧
     onlyOAuthEvents (linkSocialAccount expiredTokenWorld .discord "0xW" "tok" none).2
       = true) ∧
    ((executeLinkSocial expiredTokenWorld "0xW" .discord "tok" (some "0xkey")
        none).1.success = false ∧
     onlyOAuthEvents (executeLinkSocial expiredTokenWorld "0xW" .discord "tok"
        (some "0xkey") none).2 = true) :=
  invalidToken_halts expiredTokenWorld .discord "0xW" "tok" none (by decide)
    expiredTokenWorld "0xW" .discord "tok" (some "0xkey") none (by decide)

/-- Every event of the edge-creation stage is a submission or a receipt wait. -/
theorem tripleStage_allTx (w : World) (pf : SocialPlatform) (u : String)
    (un : Option String) (wId pId sId : String) (tc idx : Nat) (wC pC sC : Bool) :
    ∀ e ∈ (tripleStage w pf u un wId pId sId tc idx wC pC sC).2,
      eventIsTx e = true := by
  intro e he
  rcases hso : w.sendOutcome idx with m | t <;> simp only [tripleStage, hso] at he
  · simp at he; subst he; rfl
  · cases hr : w.receiptSuccess idx <;> simp [hr] at he <;>
      rcases he with he | he <;> subst he <;> rfl

/-- The edge-creation stage, run at the queried triple cost, satisfies the
deposit policy on every event. -/
theorem tripleStage_deposit (w : World) (pf : SocialPlatform) (u : String)
    (un : Option String) (wId pId sId : String) (idx : Nat) (wC pC sC : Bool) :
    ∀ e ∈ (tripleStage w pf u un wId pId sId w.getTripleCost idx wC pC sC).2,
      depositPolicyOk w e = true := by
  intro e he
  rcases hso : w.sendOutcome idx with m | t <;> simp only [tripleStage, hso] at he
  · simp at he; subst he; simp [depositPolicyOk]
  · cases hr : w.receiptSuccess idx <;> simp [hr] at he <;>
      rcases he with he | he <;> subst he <;> simp [depositPolicyOk]

/-- Every event of the social-atom stage is a submission or a receipt wait. -/
theorem socialStage_allTx (w : World) (pf : SocialPlatform) (u : String)
    (un : Option String) (sData wId pId sId : String) (sEx : Bool)
    (ac tc idx : Nat) (wC pC : Bool) :
    ∀ e ∈ (socialStage w pf u un sData wId pId sId sEx ac tc idx wC pC).2,
      eventIsTx e = true := by
  intro e he
  rw [socialStage_eq] at he
  cases sEx with
  | true =>
    rw [if_pos rfl] at he
    exact tripleStage_allTx w pf u un wId pId sId tc idx wC pC false e he
  | false =>
    rw [if_neg Bool.false_ne_true] at he
    rcases hso : w.sendOutcome idx with m | t <;> simp only [hso] at he
    · simp at he; subst he; rfl
    · cases hr : w.receiptSuccess idx with
      | false =>
        simp [hr] at he
        rcases he with he | he <;> subst he <;> rfl
      | true =>
        simp [hr] at he
        rcases he with he | he | he
        · subst he; rfl
        · subst he; rfl
        · exact tripleStage_allTx w pf u un wId pId sId tc (idx + 1) wC pC true e he

/-- The social-atom stage, run at the queried costs, satisfies the deposit
policy on every event. -/
theorem socialStage_deposit (w : World) (pf : SocialPlatform) (u : String)
    (un : Option String) (sData wId pId sId : String) (sEx : Bool)
    (idx : Nat) (wC pC : Bool) :
    ∀ e ∈ (socialStage w pf u un sData wId pId sId sEx w.getAtomCost w.getTripleCost
        idx wC pC).2,
      depositPolicyOk w e = true := by
  intro e he
  rw [socialStage_eq] at he
  cases sEx with
  | true =>
    rw [if_pos rfl] at he
    exact tripleStage_deposit w pf u un wId pId sId idx wC pC false e he
  | false =>
    rw [if_neg Bool.false_ne_true] at he
    rcases hso : w.sendOutcome idx with m | t <;> simp only [hso] at he
    · simp at he; subst he; simp [depositPolicyOk]
    · cases hr : w.receiptSuccess idx with
      | false =>
        simp [hr] at he
        rcases he with he | he <;> subst he <;> simp [depositPolicyOk]
      | true =>
        simp [hr] at he
        rcases he with he | he | he
        · subst he; simp [depositPolicyOk]
        · subst he; simp [depositPolicyOk]
        · exact tripleStage_deposit w pf u un wId pId sId (idx + 1) wC pC true e he

/-- Every event of the predicate-atom stage is a submission or receipt wait. -/
theorem predicateStage_allTx (w : World) (pf : SocialPlatform) (u : String)
    (un : Option String) (pData sData wId pId sId : String) (pEx sEx : Bool)
    (ac tc idx : Nat) (wC : Bool) :
    ∀ e ∈ (predicateStage w pf u un pData sData wId pId sId pEx sEx ac tc idx wC).2,
      eventIsTx e = true := by
  intro e he
  rw [predicateStage_eq] at he
  cases pEx with
  | true =>
    rw [if_pos rfl] at he
    exact socialStage_allTx w pf u un sData wId pId sId sEx ac tc idx wC false e he
  | false =>
    rw [if_neg Bool.false_ne_true] at he
    rcases hso : w.sendOutcome idx with m | t <;> simp only [hso] at he
    · simp at he; subst he; rfl
    · cases hr : w.receiptSuccess idx with
      | false =>
        simp [hr] at he
        rcases he with he | he <;> subst he <;> rfl
      | true =>
        simp [hr] at he
        rcases he with he | he | he
        · subst he; rfl
        · subst he; rfl
        · exact socialStage_allTx w pf u un sData wId pId sId sEx ac tc (idx + 1)
            wC true e he

/-- The predicate-atom stage, run at the queried costs, satisfies the deposit
policy on every event. -/
theorem predicateStage_deposit (w : World) (pf : SocialPlatform) (u : String)
    (un : Option String) (pData sData wId pId sId : String) (pEx sEx : Bool)
    (idx : Nat) (wC : Bool) :
    ∀ e ∈ (predicateStage w pf u un pData sData wId pId sId pEx sEx w.getAtomCost
        w.getTripleCost idx wC).2,
      depositPolicyOk w e = true := by
  intro e he
  rw [predicateStage_eq] at he
  cases pEx with
  | true =>
    rw [if_pos rfl] at he
    exact socialStage_deposit w pf u un sData wId pId sId sEx idx wC false e he
  | false =>
    rw [if_neg Bool.false_ne_true] at he
    rcases hso : w.sendOutcome idx with m | t <;> simp only [hso] at he
    · simp at he; subst he; simp [depositPolicyOk]
    · cases hr : w.receiptSuccess idx with
      | false =>
        simp [hr] at he
        rcases he with he | he <;> subst he <;> simp [depositPolicyOk]
      | true =>
        simp [hr] at he
        rcases he with he | he | he
        · subst he; simp [depositPolicyOk]
        · subst he; simp [depositPolicyOk]
        · exact socialStage_deposit w pf u un sData wId pId sId sEx (idx + 1)
            wC true e he

/-- Every event of the wallet-atom stage is a submission or receipt wait. -/
theorem walletStage_allTx (w : World) (pf : SocialPlatform) (u : String)
    (un : Option String) (wData pData sData wId pId sId : String)
    (wEx pEx sEx : Bool) (ac tc : Nat) :
    ∀ e ∈ (walletStage w pf u un wData pData sData wId pId sId wEx pEx sEx ac tc).2,
      eventIsTx e = true := by
  intro e he
  rw [walletStage_eq] at he
  cases wEx with
  | true =>
    rw [if_pos rfl] at he
    exact predicateStage_allTx w pf u un pData sData wId pId sId pEx sEx ac tc 0
      false e he
  | false =>
    rw [if_neg Bool.false_ne_true] at he
    rcases hso : w.sendOutcome 0 with m | t <;> simp only [hso] at he
    · simp at he; subst he; rfl
    · cases hr : w.receiptSuccess 0 with
      | false =>
        simp [hr] at he
        rcases he with he | he <;> subst he <;> rfl
      | true =>
        simp [hr] at he
        rcases he with he | he | he
        · subst he; rfl
        · subst he; rfl
        · exact predicateStage_allTx w pf u un pData sData wId pId sId pEx sEx ac tc 1
            true e he

/-- The wallet-atom stage, run at the queried costs, satisfies the deposit
policy on every event. -/
theorem walletStage_deposit (w : World) (pf : SocialPlatform) (u : String)
    (un : Option String) (wData pData sData wId pId sId : String)
    (wEx pEx sEx : Bool) :
    ∀ e ∈ (walletStage w pf u un wData pData sData wId pId sId wEx pEx sEx
        w.getAtomCost w.getTripleCost).2,
      depositPolicyOk w e = true := by
  intro e he
  rw [walletStage_eq] at he
  cases wEx with
  | true =>
    rw [if_pos rfl] at he
    exact predicateStage_deposit w pf u un pData sData wId pId sId pEx sEx 0 false e he
  | false =>
    rw [if_neg Bool.false_ne_true] at he
    rcases hso : w.sendOutcome 0 with m | t <;> simp only [hso] at he
    · simp at he; subst he; simp [depositPolicyOk]
    · cases hr : w.receiptSuccess 0 with
      | false =>
        simp [hr] at he
        rcases he with he | he <;> subst he <;> simp [depositPolicyOk]
      | true =>
        simp [hr] at he
        rcases he with he | he | he
        · subst he; simp [depositPolicyOk]
        · subst he; simp [depositPolicyOk]
        · exact predicateStage_deposit w pf u un pData sData wId pId sId pEx sEx 1
            true e he

/-- A trace of submissions and receipt waits contains no ledger read. -/
theorem ledgerReadCount_eq_zero (tr : List Event) (r : LedgerRead)
    (h : ∀ e ∈ tr, eventIsTx e = true) : ledgerReadCount tr r = 0 := by
  unfold ledgerReadCount
  rw [List.length_eq_zero, List.filter_eq_nil]
  intro e he
  have ht := h e he
  cases e <;> simp [eventIsTx] at ht ⊢

/-- Ledger-read counting distributes over concatenation. -/
theorem ledgerReadCount_append (l1 l2 : List Event) (r : LedgerRead) :
    ledgerReadCount (l1 ++ l2) r = ledgerReadCount l1 r + ledgerReadCount l2 r := by
  simp [ledgerReadCount, List.filter_append]

/-- The optional OAuth-call prefix contains no ledger read. -/
theorem ledgerReadCount_ite_oauth (P : Prop) [Decidable P] (pf : SocialPlatform)
    (r : LedgerRead) :
    ledgerReadCount (if P then [Event.oauthCall pf] else []) r = 0 := by
  split <;> simp [ledgerReadCount]

/-- C7.  Every atom-creation transaction of the pipeline carries value (and
assets argument) equal to the queried atom cost plus the fixed
`ATOM_DEPOSIT`, the edge-creation transaction carries value equal to the
queried triple cost plus the fixed `TRIPLE_EXTRA` (exact arithmetic on `Nat`,
no truncation — JS bigint), and each of the two cost reads is issued at most
once per invocation, its value reused for all conditional creates. -/
theorem depositPolicy_holds (w : World) (platform : SocialPlatform)
    (walletAddress oauthToken : String) (twitchClientId : Option String) :
    ((linkSocialAccount w platform walletAddress oauthToken twitchClientId).2.all
      (depositPolicyOk w)) = true ∧
    ledgerReadCount (linkSocialAccount w platform walletAddress oauthToken
      twitchClientId).2 LedgerRead.getAtomCost ≤ 1 ∧
    ledgerReadCount (linkSocialAccount w platform walletAddress oauthToken
      twitchClientId).2 LedgerRead.getTripleCost ≤ 1 := by
  cases hv : (!(verifyAndGetUserId platform oauthToken twitchClientId
      w.oauthFetch).1.valid ||
      jsFalsyStr (verifyAndGetUserId platform oauthToken twitchClientId
        w.oauthFetch).1.userId) with
  | true =>
    cases hoc : (verifyAndGetUserId platform oauthToken twitchClientId w.oauthFetch).2 <;>
      simp [linkSocialAccount, hv, hoc, depositPolicyOk, ledgerReadCount]
  | false =>
    rcases hpin : w.pinThing
        ((verifyAndGetUserId platform oauthToken twitchClientId
          w.oauthFetch).1.userId.getD "")
        ("Verified " ++ platformSlug platform ++ " account ID") with m | uri
    · cases hoc : (verifyAndGetUserId platform oauthToken twitchClientId w.oauthFetch).2 <;>
        simp [linkSocialAccount, hv, hoc, hpin, depositPolicyOk, ledgerReadCount]
    · refine ⟨?_, ?_, ?_⟩
      · simp only [linkSocialAccount, hv, hpin]
        rw [List.all_eq_true]
        intro e he
        simp at he
        repeat' rcases he with he | he
        all_goals first
          | (exact walletStage_deposit w platform _ _ _ _ _ _ _ _ _ _ _ e he)
          | (subst he; simp [depositPolicyOk])
          | (obtain ⟨-, he⟩ := he; subst he; simp [depositPolicyOk])
          | simp [depositPolicyOk]
      · simp only [linkSocialAccount, hv, hpin, Bool.false_eq_true, if_false]
        simp only [ledgerReadCount_append, ledgerReadCount_ite_oauth,
          ledgerReadCount_eq_zero _ _
            (walletStage_allTx w platform _ _ _ _ _ _ _ _ _ _ _ _ _)]
        simp [ledgerReadCount]
      · simp only [linkSocialAccount, hv, hpin, Bool.false_eq_true, if_false]
        simp only [ledgerReadCount_append, ledgerReadCount_ite_oauth,
          ledgerReadCount_eq_zero _ _
            (walletStage_allTx w platform _ _ _ _ _ _ _ _ _ _ _ _ _)]
        simp [ledgerReadCount]


/-- `atomSendPayloads` distributes over concatenation. -/
theorem atomSendPayloads_append (l1 l2 : List Event) :
    atomSendPayloads (l1 ++ l2) = atomSendPayloads l1 ++ atomSendPayloads l2 := by
  induction l1 with
  | nil => rfl
  | cons e rest ih =>
    cases e with
    | sendTx call v g i => cases call <;> simp [atomSendPayloads, ih]
    | oauthCall p => simp [atomSendPayloads, ih]
    | pinCall n d => simp [atomSendPayloads, ih]
    | ledgerRead r => simp [atomSendPayloads, ih]
    | waitReceipt i b => simp [atomSendPayloads, ih]

/-- Prefixes are stable under prepending a common left part. -/
theorem isPre_append_left {α : Type} (l : List α) {t r : List α} (h : t <+: r) :
    l ++ t <+: l ++ r := by
  obtain ⟨u, hu⟩ := h
  exact ⟨u, by rw [List.append_assoc, hu]⟩

/-- Prefixes are stable under prepending a common head. -/
theorem consPre_cons {α : Type} (a : α) {l r : List α} (h : l <+: r) :
    a :: l <+: a :: r := by
  obtain ⟨u, hu⟩ := h
  exact ⟨u, by rw [List.cons_append, hu]⟩

/-- The edge-creation stage submits no atom payload. -/
theorem tripleStage_payloads (w : World) (pf : SocialPlatform) (u : String)
    (un : Option String) (wId pId sId : String) (tc idx : Nat) (wC pC sC : Bool) :
    atomSendPayloads (tripleStage w pf u un wId pId sId tc idx wC pC sC).2 = [] := by
  rcases hso : w.sendOutcome idx with m | t <;> simp only [tripleStage, hso]
  · rfl
  · cases hr : w.receiptSuccess idx <;> simp [hr, atomSendPayloads]

/-- The social-atom stage submits its payload exactly when the atom did not
already exist. -/
theorem socialStage_payloads (w : World) (pf : SocialPlatform) (u : String)
    (un : Option String) (sData wId pId sId : String) (sEx : Bool)
    (ac tc idx : Nat) (wC pC : Bool) :
    atomSendPayloads (socialStage w pf u un sData wId pId sId sEx ac tc idx wC pC).2 =
      (if sEx then [] else [sData]) := by
  rw [socialStage_eq]
  cases sEx with
  | true =>
    rw [if_pos rfl, if_pos rfl]
    exact tripleStage_payloads w pf u un wId pId sId tc idx wC pC false
  | false =>
    rw [if_neg Bool.false_ne_true, if_neg Bool.false_ne_true]
    rcases hso : w.sendOutcome idx with m | t <;> simp only [hso]
    · simp [atomSendPayloads]
    · cases hr : w.receiptSuccess idx <;>
        simp [hr, atomSendPayloads, atomSendPayloads_append, tripleStage_payloads]

/-- The predicate-atom stage submits at most its payload and then the social
payload, in that order, each conditional on the existence check. -/
theorem predicateStage_payloads (w : World) (pf : SocialPlatform) (u : String)
    (un : Option String) (pData sData wId pId sId : String) (pEx sEx : Bool)
    (ac tc idx : Nat) (wC : Bool) :
    atomSendPayloads
      (predicateStage w pf u un pData sData wId pId sId pEx sEx ac tc idx wC).2 <+:
      (if pEx then [] else [pData]) ++ (if sEx then [] else [sData]) := by
  rw [predicateStage_eq]
  cases pEx with
  | true =>
    rw [if_pos rfl, if_pos rfl]
    rw [socialStage_payloads]
    simp
  | false =>
    rw [if_neg Bool.false_ne_true, if_neg Bool.false_ne_true]
    rcases hso : w.sendOutcome idx with m | t <;> simp only [hso]
    · simp only [atomSendPayloads, List.nil_append, List.singleton_append]
      exact List.prefix_append _ _
    · cases hr : w.receiptSuccess idx with
      | false =>
        simp only [hr, Bool.false_eq_true, if_false]
        simp only [atomSendPayloads, List.nil_append, List.singleton_append]
        exact List.prefix_append _ _
      | true =>
        simp only [hr, if_pos rfl]
        simp only [atomSendPayloads, List.cons_append, List.nil_append,
          List.singleton_append]
        refine consPre_cons pData ?_
        show atomSendPayloads
          (socialStage w pf u un sData wId pId sId sEx ac tc (idx + 1) wC true).2 <+: _
        rw [socialStage_payloads]

/-- The wallet-atom stage submits at most the wallet, predicate and social
payloads, in that order, each conditional on its existence check. -/
theorem walletStage_payloads (w : World) (pf : SocialPlatform) (u : String)
    (un : Option String) (wData pData sData wId pId sId : String)
    (wEx pEx sEx : Bool) (ac tc : Nat) :
    atomSendPayloads
      (walletStage w pf u un wData pData sData wId pId sId wEx pEx sEx ac tc).2 <+:
      (if wEx then [] else [wData]) ++ (if pEx then [] else [pData]) ++
        (if sEx then [] else [sData]) := by
  rw [walletStage_eq]
  cases wEx with
  | true =>
    rw [if_pos rfl, if_pos rfl]
    simp only [List.nil_append]
    exact predicateStage_payloads w pf u un pData sData wId pId sId pEx sEx ac tc 0 false
  | false =>
    rw [if_neg Bool.false_ne_true, if_neg Bool.false_ne_true]
    rcases hso : w.sendOutcome 0 with m | t <;> simp only [hso]
    · simp only [atomSendPayloads, List.nil_append, List.singleton_append,
        List.append_assoc]
      exact List.prefix_append _ _
    · cases hr : w.receiptSuccess 0 with
      | false =>
        simp only [hr, Bool.false_eq_true, if_false]
        simp only [atomSendPayloads, List.nil_append, List.singleton_append,
          List.append_assoc]
        exact List.prefix_append _ _
      | true =>
        simp only [hr, if_pos rfl]
        simp only [atomSendPayloads, List.cons_append, List.nil_append,
          List.singleton_append, List.append_assoc]
        refine consPre_cons wData ?_
        show atomSendPayloads
          (predicateStage w pf u un pData sData wId pId sId pEx sEx ac tc 1 true).2 <+: _
        exact predicateStage_payloads w pf u un pData sData wId pId sId pEx sEx ac tc 1 true

/-- Every atom submission of the edge-creation stage is awaited (vacuous: it
has none). -/
theorem tripleStage_awaited (w : World) (pf : SocialPlatform) (u : String)
    (un : Option String) (wId pId sId : String) (tc idx : Nat) (wC pC sC : Bool) :
    atomSendsAwaited (tripleStage w pf u un wId pId sId tc idx wC pC sC).2 = true := by
  rcases hso : w.sendOutcome idx with m | t <;> simp only [tripleStage, hso]
  · rfl
  · cases hr : w.receiptSuccess idx <;> simp [hr, atomSendsAwaited]

/-- Every atom submission of the social-atom stage is immediately followed by
the wait for its own receipt. -/
theorem socialStage_awaited (w : World) (pf : SocialPlatform) (u : String)
    (un : Option String) (sData wId pId sId : String) (sEx : Bool)
    (ac tc idx : Nat) (wC pC : Bool) :
    atomSendsAwaited (socialStage w pf u un sData wId pId sId sEx ac tc idx wC pC).2
      = true := by
  rw [socialStage_eq]
  cases sEx with
  | true =>
    rw [if_pos rfl]
    exact tripleStage_awaited w pf u un wId pId sId tc idx wC pC false
  | false =>
    rw [if_neg Bool.false_ne_true]
    rcases hso : w.sendOutcome idx with m | t <;> simp only [hso]
    · rfl
    · cases hr : w.receiptSuccess idx <;>
        simp [hr, atomSendsAwaited, tripleStage_awaited]

/-- Every atom submission of the predicate-atom stage is immediately followed
by the wait for its own receipt. -/
theorem predicateStage_awaited (w : World) (pf : SocialPlatform) (u : String)
    (un : Option String) (pData sData wId pId sId : String) (pEx sEx : Bool)
    (ac tc idx : Nat) (wC : Bool) :
    atomSendsAwaited
      (predicateStage w pf u un pData sData wId pId sId pEx sEx ac tc idx wC).2
      = true := by
  rw [predicateStage_eq]
  cases pEx with
  | true =>
    rw [if_pos rfl]
    exact socialStage_awaited w pf u un sData wId pId sId sEx ac tc idx wC false
  | false =>
    rw [if_neg Bool.false_ne_true]
    rcases hso : w.sendOutcome idx with m | t <;> simp only [hso]
    · rfl
    · cases hr : w.receiptSuccess idx with
      | false => simp [hr, atomSendsAwaited]
      | true =>
        have hs := socialStage_awaited w pf u un sData wId pId sId sEx ac tc (idx + 1)
          wC true
        simp [hr, atomSendsAwaited, hs]

/-- Every atom submission of the wallet-atom stage is immediately followed by
the wait for its own receipt. -/
theorem walletStage_awaited (w : World) (pf : SocialPlatform) (u : String)
    (un : Option String) (wData pData sData wId pId sId : String)
    (wEx pEx sEx : Bool) (ac tc : Nat) :
    atomSendsAwaited
      (walletStage w pf u un wData pData sData wId pId sId wEx pEx sEx ac tc).2
      = true := by
  rw [walletStage_eq]
  cases wEx with
  | true =>
    rw [if_pos rfl]
    exact predicateStage_awaited w pf u un pData sData wId pId sId pEx sEx ac tc 0 false
  | false =>
    rw [if_neg Bool.false_ne_true]
    rcases hso : w.sendOutcome 0 with m | t <;> simp only [hso]
    · rfl
    · cases hr : w.receiptSuccess 0 with
      | false => simp [hr, atomSendsAwaited]
      | true =>
        have hs := predicateStage_awaited w pf u un pData sData wId pId sId pEx sEx
          ac tc 1 true
        simp [hr, atomSendsAwaited, hs]

/-- C5.  Within one `linkSocialAccount` invocation, the atom payloads
submitted through `createAtoms` form a prefix of the mandated conditional
sequence — wallet payload (only if its existence check answered false), then
predicate payload (only if its check answered false), then social payload
(only if its check answered false) — in that strict order; and every atom
submission is immediately followed by the wait for its own receipt before
any later step begins (a prefix rather than the full sequence, because an
earlier failure aborts the remaining creations). -/
theorem sequentialNodeCreation (w : World) (platform : SocialPlatform)
    (walletAddress oauthToken : String) (twitchClientId : Option String) :
    (atomSendPayloads
      (linkSocialAccount w platform walletAddress oauthToken twitchClientId).2 <+:
      expectedCreations w platform walletAddress oauthToken twitchClientId) ∧
    atomSendsAwaited
      (linkSocialAccount w platform walletAddress oauthToken twitchClientId).2 = true := by
  cases hv : (!(verifyAndGetUserId platform oauthToken twitchClientId
      w.oauthFetch).1.valid ||
      jsFalsyStr (verifyAndGetUserId platform oauthToken twitchClientId
        w.oauthFetch).1.userId) with
  | true =>
    cases hoc : (verifyAndGetUserId platform oauthToken twitchClientId w.oauthFetch).2 <;>
      simp [linkSocialAccount, hv, hoc, atomSendPayloads, atomSendsAwaited,
        List.nil_prefix]
  | false =>
    rcases hpin : w.pinThing
        ((verifyAndGetUserId platform oauthToken twitchClientId
          w.oauthFetch).1.userId.getD "")
        ("Verified " ++ platformSlug platform ++ " account ID") with m | uri
    · cases hoc : (verifyAndGetUserId platform oauthToken twitchClientId w.oauthFetch).2 <;>
        simp [linkSocialAccount, hv, hoc, hpin, atomSendPayloads, atomSendsAwaited,
          List.nil_prefix]
    · constructor
      · cases hoc : (verifyAndGetUserId platform oauthToken twitchClientId w.oauthFetch).2 <;>
          simp only [linkSocialAccount, hv, hoc, hpin, Bool.false_eq_true, if_false,
            expectedCreations] <;>
          simp only [atomSendPayloads_append, List.cons_append, List.nil_append] <;>
          simp only [atomSendPayloads] <;>
          simpa [atomSendPayloads] using
            walletStage_payloads w platform _ _ _ _ _ _ _ _ _ _ _ _ _
      · cases hoc : (verifyAndGetUserId platform oauthToken twitchClientId w.oauthFetch).2 <;>
          simp only [linkSocialAccount, hv, hoc, hpin, Bool.false_eq_true, if_false] <;>
          simp only [List.cons_append, List.nil_append, atomSendsAwaited] <;>
          exact walletStage_awaited w platform _ _ _ _ _ _ _ _ _ _ _ _ _


/-- `confirmedCreatedBefore` is monotone in the triple's transaction index. -/
theorem confirmedCreatedBefore_mono (w : World) (tr : List Event) (x : String)
    (a b : Nat) (hab : a ≤ b) (h : confirmedCreatedBefore w tr x a = true) :
    confirmedCreatedBefore w tr x b = true := by
  unfold confirmedCreatedBefore at h ⊢
  rw [List.any_eq_true] at h ⊢
  obtain ⟨e, he, hpe⟩ := h
  refine ⟨e, he, ?_⟩
  cases e with
  | sendTx call v g j =>
    cases call with
    | createAtoms ds as =>
      cases ds with
      | nil => simp at hpe
      | cons d rest =>
        cases rest with
        | nil =>
          simp only [Bool.and_eq_true, decide_eq_true_eq] at hpe ⊢
          exact ⟨⟨hpe.1.1, lt_of_lt_of_le hpe.1.2 hab⟩, hpe.2⟩
        | cons _ _ => simp at hpe
    | createTriples _ _ _ _ => simp at hpe
  | oauthCall _ => simp at hpe
  | pinCall _ _ => simp at hpe
  | ledgerRead _ => simp at hpe
  | waitReceipt _ _ => simp at hpe

/-- `endpointReady` is monotone in the triple's transaction index. -/
theorem endpointReady_mono (w : World) (tr : List Event) (x : String)
    (a b : Nat) (hab : a ≤ b) (h : endpointReady w tr x a = true) :
    endpointReady w tr x b = true := by
  unfold endpointReady at h ⊢
  rcases (Bool.or_eq_true _ _).mp h with h1 | h2
  · simp [h1]
  · simp [confirmedCreatedBefore_mono w tr x a b hab h2]

/-- Building block: a one-atom submission at index `j` with a successful
receipt, both in the trace, witnesses `confirmedCreatedBefore` for any later
index. -/
theorem mkConfirmed (w : World) (tr : List Event) (termId data : String)
    (a : List Nat) (v g j k : Nat)
    (hsend : Event.sendTx (TxCall.createAtoms [data] a) v g j ∈ tr)
    (hrec : Event.waitReceipt j true ∈ tr)
    (hid : w.calculateAtomId data = termId) (hj : j < k) :
    confirmedCreatedBefore w tr termId k = true := by
  unfold confirmedCreatedBefore
  rw [List.any_eq_true]
  refine ⟨_, hsend, ?_⟩
  simp only [Bool.and_eq_true, decide_eq_true_eq]
  refine ⟨⟨hid, hj⟩, ?_⟩
  rw [List.any_eq_true]
  exact ⟨_, hrec, by simp⟩

/-- Readiness propagation through the edge-creation stage: the submitted
triple's endpoints are the three atom ids handed to the stage, at the stage's
index, so readiness of those ids yields readiness of the endpoints. -/
theorem tripleStage_ready (w : World) (pf : SocialPlatform) (u : String)
    (un : Option String) (wId pId sId : String) (tc idx : Nat) (wC pC sC : Bool)
    (tr : List Event)
    (hw : endpointReady w tr wId idx = true)
    (hp : endpointReady w tr pId idx = true)
    (hs : endpointReady w tr sId idx = true)
    (s p o : String) (a : List Nat) (v g i : Nat)
    (h : Event.sendTx (TxCall.createTriples [s] [p] [o] a) v g i ∈
      (tripleStage w pf u un wId pId sId tc idx wC pC sC).2) :
    endpointReady w tr s i = true ∧ endpointReady w tr p i = true ∧
      endpointReady w tr o i = true := by
  have key : s = wId ∧ p = pId ∧ o = sId ∧ i = idx := by
    rcases hso : w.sendOutcome idx with m | t <;> simp only [tripleStage, hso] at h
    · simp at h; tauto
    · cases hr : w.receiptSuccess idx <;> simp [hr] at h <;> tauto
  obtain ⟨rfl, rfl, rfl, rfl⟩ := key
  exact ⟨hw, hp, hs⟩

/-- Readiness propagation through the social-atom stage. -/
theorem socialStage_ready (w : World) (pf : SocialPlatform) (u : String)
    (un : Option String) (sData wId pId sId : String) (sEx : Bool)
    (ac tc idx : Nat) (wC pC : Bool) (tr : List Event)
    (hsub : ∀ e ∈ (socialStage w pf u un sData wId pId sId sEx ac tc idx wC pC).2,
      e ∈ tr)
    (hw : endpointReady w tr wId idx = true)
    (hp : endpointReady w tr pId idx = true)
    (hsid : w.calculateAtomId sData = sId)
    (hsx : sEx = w.isTermCreated sId)
    (s p o : String) (a : List Nat) (v g i : Nat)
    (h : Event.sendTx (TxCall.createTriples [s] [p] [o] a) v g i ∈
      (socialStage w pf u un sData wId pId sId sEx ac tc idx wC pC).2) :
    endpointReady w tr s i = true ∧ endpointReady w tr p i = true ∧
      endpointReady w tr o i = true := by
  rw [socialStage_eq] at h hsub
  cases sEx with
  | true =>
    rw [if_pos rfl] at h
    refine tripleStage_ready w pf u un wId pId sId tc idx wC pC false tr hw hp ?_
      s p o a v g i h
    simp [endpointReady, ← hsx]
  | false =>
    rw [if_neg Bool.false_ne_true] at h hsub
    rcases hso : w.sendOutcome idx with m | t <;> simp only [hso] at h hsub
    · simp at h
    · cases hr : w.receiptSuccess idx with
      | false => simp [hr] at h
      | true =>
        simp only [hr, if_pos rfl] at h hsub
        simp at h
        have hsend : Event.sendTx
            (TxCall.createAtoms [sData] [ac + BOT_DEPOSIT_CONFIG.ATOM_DEPOSIT])
            (ac + BOT_DEPOSIT_CONFIG.ATOM_DEPOSIT) GAS_LIMITS.ATOM_CREATION idx ∈ tr :=
          hsub _ (by simp)
        have hrec : Event.waitReceipt idx true ∈ tr := hsub _ (by simp)
        refine tripleStage_ready w pf u un wId pId sId tc (idx + 1) wC pC true tr
          (endpointReady_mono w tr wId idx (idx + 1) (Nat.le_succ idx) hw)
          (endpointReady_mono w tr pId idx (idx + 1) (Nat.le_succ idx) hp)
          ?_ s p o a v g i h
        unfold endpointReady
        rw [mkConfirmed w tr sId sData _ _ _ idx (idx + 1) hsend hrec hsid
          (Nat.lt_succ_self idx)]
        simp

/-- Readiness propagation through the predicate-atom stage. -/
theorem predicateStage_ready (w : World) (pf : SocialPlatform) (u : String)
    (un : Option String) (pData sData wId pId sId : String) (pEx sEx : Bool)
    (ac tc idx : Nat) (wC : Bool) (tr : List Event)
    (hsub : ∀ e ∈
      (predicateStage w pf u un pData sData wId pId sId pEx sEx ac tc idx wC).2,
      e ∈ tr)
    (hw : endpointReady w tr wId idx = true)
    (hpid : w.calculateAtomId pData = pId)
    (hpx : pEx = w.isTermCreated pId)
    (hsid : w.calculateAtomId sData = sId)
    (hsx : sEx = w.isTermCreated sId)
    (s p o : String) (a : List Nat) (v g i : Nat)
    (h : Event.sendTx (TxCall.createTriples [s] [p] [o] a) v g i ∈
      (predicateStage w pf u un pData sData wId pId sId pEx sEx ac tc idx wC).2) :
    endpointReady w tr s i = true ∧ endpointReady w tr p i = true ∧
      endpointReady w tr o i = true := by
  rw [predicateStage_eq] at h hsub
  cases pEx with
  | true =>
    rw [if_pos rfl] at h hsub
    refine socialStage_ready w pf u un sData wId pId sId sEx ac tc idx wC false tr
      hsub hw ?_ hsid hsx s p o a v g i h
    simp [endpointReady, ← hpx]
  | false =>
    rw [if_neg Bool.false_ne_true] at h hsub
    rcases hso : w.sendOutcome idx with m | t <;> simp only [hso] at h hsub
    · simp at h
    · cases hr : w.receiptSuccess idx with
      | false => simp [hr] at h
      | true =>
        simp only [hr, if_pos rfl] at h hsub
        simp at h
        have hsend : Event.sendTx
            (TxCall.createAtoms [pData] [ac + BOT_DEPOSIT_CONFIG.ATOM_DEPOSIT])
            (ac + BOT_DEPOSIT_CONFIG.ATOM_DEPOSIT) GAS_LIMITS.ATOM_CREATION idx ∈ tr :=
          hsub _ (by simp)
        have hrec : Event.waitReceipt idx true ∈ tr := hsub _ (by simp)
        have hsub2 : ∀ e ∈
            (socialStage w pf u un sData wId pId sId sEx ac tc (idx + 1) wC true).2,
            e ∈ tr := fun e2 he2 => hsub e2 (by simp [he2])
        refine socialStage_ready w pf u un sData wId pId sId sEx ac tc (idx + 1) wC
          true tr hsub2
          (endpointReady_mono w tr wId idx (idx + 1) (Nat.le_succ idx) hw)
          ?_ hsid hsx s p o a v g i h
        unfold endpointReady
        rw [mkConfirmed w tr pId pData _ _ _ idx (idx + 1) hsend hrec hpid
          (Nat.lt_succ_self idx)]
        simp

/-- Readiness propagation through the wallet-atom stage: any triple submitted
by the stage chain has all three endpoints either pre-existing (their
existence check answered true) or created and confirmed earlier in the same
invocation. -/
theorem walletStage_ready (w : World) (pf : SocialPlatform) (u : String)
    (un : Option String) (wData pData sData wId pId sId : String)
    (wEx pEx sEx : Bool) (ac tc : Nat) (tr : List Event)
    (hsub : ∀ e ∈
      (walletStage w pf u un wData pData sData wId pId sId wEx pEx sEx ac tc).2,
      e ∈ tr)
    (hwid : w.calculateAtomId wData = wId)
    (hwx : wEx = w.isTermCreated wId)
    (hpid : w.calculateAtomId pData = pId)
    (hpx : pEx = w.isTermCreated pId)
    (hsid : w.calculateAtomId sData = sId)
    (hsx : sEx = w.isTermCreated sId)
    (s p o : String) (a : List Nat) (v g i : Nat)
    (h : Event.sendTx (TxCall.createTriples [s] [p] [o] a) v g i ∈
      (walletStage w pf u un wData pData sData wId pId sId wEx pEx sEx ac tc).2) :
    endpointReady w tr s i = true ∧ endpointReady w tr p i = true ∧
      endpointReady w tr o i = true := by
  rw [walletStage_eq] at h hsub
  cases wEx with
  | true =>
    rw [if_pos rfl] at h hsub
    refine predicateStage_ready w pf u un pData sData wId pId sId pEx sEx ac tc 0
      false tr hsub ?_ hpid hpx hsid hsx s p o a v g i h
    simp [endpointReady, ← hwx]
  | false =>
    rw [if_neg Bool.false_ne_true] at h hsub
    rcases hso : w.sendOutcome 0 with m | t <;> simp only [hso] at h hsub
    · simp at h
    · cases hr : w.receiptSuccess 0 with
      | false => simp [hr] at h
      | true =>
        simp only [hr, if_pos rfl] at h hsub
        simp at h
        have hsend : Event.sendTx
            (TxCall.createAtoms [wData] [ac + BOT_DEPOSIT_CONFIG.ATOM_DEPOSIT])
            (ac + BOT_DEPOSIT_CONFIG.ATOM_DEPOSIT) GAS_LIMITS.ATOM_CREATION 0 ∈ tr :=
          hsub _ (by simp)
        have hrec : Event.waitReceipt 0 true ∈ tr := hsub _ (by simp)
        have hsub2 : ∀ e ∈
            (predicateStage w pf u un pData sData wId pId sId pEx sEx ac tc 1 true).2,
            e ∈ tr := fun e2 he2 => hsub e2 (by simp [he2])
        refine predicateStage_ready w pf u un pData sData wId pId sId pEx sEx ac tc 1
          true tr hsub2 ?_ hpid hpx hsid hsx s p o a v g i h
        unfold endpointReady
        rw [mkConfirmed w tr wId wData _ _ _ 0 1 hsend hrec hwid Nat.zero_lt_one]
        simp

/-- Readiness propagation through the workflow's edge-creation stage. -/
theorem wfTripleStage_ready (w : World) (pf : SocialPlatform)
    (u un : Option String) (wId pId sId : String) (tc idx : Nat) (wC pC sC : Bool)
    (tr : List Event)
    (hw : endpointReady w tr wId idx = true)
    (hp : endpointReady w tr pId idx = true)
    (hs : endpointReady w tr sId idx = true)
    (s p o : String) (a : List Nat) (v g i : Nat)
    (h : Event.sendTx (TxCall.createTriples [s] [p] [o] a) v g i ∈
      (wfTripleStage w pf u un wId pId sId tc idx wC pC sC).2) :
    endpointReady w tr s i = true ∧ endpointReady w tr p i = true ∧
      endpointReady w tr o i = true := by
  have key : s = wId ∧ p = pId ∧ o = sId ∧ i = idx := by
    rcases hso : w.sendOutcome idx with m | t <;> simp only [wfTripleStage, hso] at h
    · simp at h; tauto
    · cases hr : w.receiptSuccess idx <;> simp [hr] at h <;> tauto
  obtain ⟨rfl, rfl, rfl, rfl⟩ := key
  exact ⟨hw, hp, hs⟩

/-- Readiness propagation through the workflow's social-atom stage. -/
theorem wfSocialStage_ready (w : World) (pf : SocialPlatform)
    (u un : Option String) (sData wId pId sId : String) (sEx : Bool)
    (ac tc idx : Nat) (wC pC : Bool) (tr : List Event)
    (hsub : ∀ e ∈ (wfSocialStage w pf u un sData wId pId sId sEx ac tc idx wC pC).2,
      e ∈ tr)
    (hw : endpointReady w tr wId idx = true)
    (hp : endpointReady w tr pId idx = true)
    (hsid : w.calculateAtomId sData = sId)
    (hsx : sEx = w.isTermCreated sId)
    (s p o : String) (a : List Nat) (v g i : Nat)
    (h : Event.sendTx (TxCall.createTriples [s] [p] [o] a) v g i ∈
      (wfSocialStage w pf u un sData wId pId sId sEx ac tc idx wC pC).2) :
    endpointReady w tr s i = true ∧ endpointReady w tr p i = true ∧
      endpointReady w tr o i = true := by
  unfold wfSocialStage at h hsub
  cases sEx with
  | true =>
    rw [if_pos rfl] at h
    refine wfTripleStage_ready w pf u un wId pId sId tc idx wC pC false tr hw hp ?_
      s p o a v g i h
    simp [endpointReady, ← hsx]
  | false =>
    rw [if_neg Bool.false_ne_true] at h hsub
    rcases hso : w.sendOutcome idx with m | t <;> simp only [hso] at h hsub
    · simp at h
    · cases hr : w.receiptSuccess idx with
      | false => simp [hr] at h
      | true =>
        simp only [hr, if_pos rfl] at h hsub
        simp at h
        have hsend : Event.sendTx
            (TxCall.createAtoms [sData] [ac + 500000000000000000])
            (ac + 500000000000000000) 500000 idx ∈ tr := hsub _ (by simp)
        have hrec : Event.waitReceipt idx true ∈ tr := hsub _ (by simp)
        refine wfTripleStage_ready w pf u un wId pId sId tc (idx + 1) wC pC true tr
          (endpointReady_mono w tr wId idx (idx + 1) (Nat.le_succ idx) hw)
          (endpointReady_mono w tr pId idx (idx + 1) (Nat.le_succ idx) hp)
          ?_ s p o a v g i h
        unfold endpointReady
        rw [mkConfirmed w tr sId sData _ _ _ idx (idx + 1) hsend hrec hsid
          (Nat.lt_succ_self idx)]
        simp

/-- Readiness propagation through the workflow's predicate-atom stage. -/
theorem wfPredicateStage_ready (w : World) (pf : SocialPlatform)
    (u un : Option String) (pData sData wId pId sId : String) (pEx sEx : Bool)
    (ac tc idx : Nat) (wC : Bool) (tr : List Event)
    (hsub : ∀ e ∈
      (wfPredicateStage w pf u un pData sData wId pId sId pEx sEx ac tc idx wC).2,
      e ∈ tr)
    (hw : endpointReady w tr wId idx = true)
    (hpid : w.calculateAtomId pData = pId)
    (hpx : pEx = w.isTermCreated pId)
    (hsid : w.calculateAtomId sData = sId)
    (hsx : sEx = w.isTermCreated sId)
    (s p o : String) (a : List Nat) (v g i : Nat)
    (h : Event.sendTx (TxCall.createTriples [s] [p] [o] a) v g i ∈
      (wfPredicateStage w pf u un pData sData wId pId sId pEx sEx ac tc idx wC).2) :
    endpointReady w tr s i = true ∧ endpointReady w tr p i = true ∧
      endpointReady w tr o i = true := by
  unfold wfPredicateStage at h hsub
  cases pEx with
  | true =>
    rw [if_pos rfl] at h hsub
    refine wfSocialStage_ready w pf u un sData wId pId sId sEx ac tc idx wC false tr
      hsub hw ?_ hsid hsx s p o a v g i h
    simp [endpointReady, ← hpx]
  | false =>
    rw [if_neg Bool.false_ne_true] at h hsub
    rcases hso : w.sendOutcome idx with m | t <;> simp only [hso] at h hsub
    · simp at h
    · cases hr : w.receiptSuccess idx with
      | false => simp [hr] at h
      | true =>
        simp only [hr, if_pos rfl] at h hsub
        simp at h
        have hsend : Event.sendTx
            (TxCall.createAtoms [pData] [ac + 500000000000000000])
            (ac + 500000000000000000) 500000 idx ∈ tr := hsub _ (by simp)
        have hrec : Event.waitReceipt idx true ∈ tr := hsub _ (by simp)
        have hsub2 : ∀ e ∈
            (wfSocialStage w pf u un sData wId pId sId sEx ac tc (idx + 1) wC true).2,
            e ∈ tr := fun e2 he2 => hsub e2 (by simp [he2])
        refine wfSocialStage_ready w pf u un sData wId pId sId sEx ac tc (idx + 1) wC
          true tr hsub2
          (endpointReady_mono w tr wId idx (idx + 1) (Nat.le_succ idx) hw)
          ?_ hsid hsx s p o a v g i h
        unfold endpointReady
        rw [mkConfirmed w tr pId pData _ _ _ idx (idx + 1) hsend hrec hpid
          (Nat.lt_succ_self idx)]
        simp

/-- Readiness propagation through the workflow's wallet-atom stage. -/
theorem wfWalletStage_ready (w : World) (pf : SocialPlatform)
    (u un : Option String) (wData pData sData wId pId sId : String)
    (wEx pEx sEx : Bool) (ac tc : Nat) (tr : List Event)
    (hsub : ∀ e ∈
      (wfWalletStage w pf u un wData pData sData wId pId sId wEx pEx sEx ac tc).2,
      e ∈ tr)
    (hwid : w.calculateAtomId wData = wId)
    (hwx : wEx = w.isTermCreated wId)
    (hpid : w.calculateAtomId pData = pId)
    (hpx : pEx = w.isTermCreated pId)
    (hsid : w.calculateAtomId sData = sId)
    (hsx : sEx = w.isTermCreated sId)
    (s p o : String) (a : List Nat) (v g i : Nat)
    (h : Event.sendTx (TxCall.createTriples [s] [p] [o] a) v g i ∈
      (wfWalletStage w pf u un wData pData sData wId pId sId wEx pEx sEx ac tc).2) :
    endpointReady w tr s i = true ∧ endpointReady w tr p i = true ∧
      endpointReady w tr o i = true := by
  unfold wfWalletStage at h hsub
  cases wEx with
  | true =>
    rw [if_pos rfl] at h hsub
    refine wfPredicateStage_ready w pf u un pData sData wId pId sId pEx sEx ac tc 0
      false tr hsub ?_ hpid hpx hsid hsx s p o a v g i h
    simp [endpointReady, ← hwx]
  | false =>
    rw [if_neg Bool.false_ne_true] at h hsub
    rcases hso : w.sendOutcome 0 with m | t <;> simp only [hso] at h hsub
    · simp at h
    · cases hr : w.receiptSuccess 0 with
      | false => simp [hr] at h
      | true =>
        simp only [hr, if_pos rfl] at h hsub
        simp at h
        have hsend : Event.sendTx
            (TxCall.createAtoms [wData] [ac + 500000000000000000])
            (ac + 500000000000000000) 500000 0 ∈ tr := hsub _ (by simp)
        have hrec : Event.waitReceipt 0 true ∈ tr := hsub _ (by simp)
        have hsub2 : ∀ e ∈
            (wfPredicateStage w pf u un pData sData wId pId sId pEx sEx ac tc 1 true).2,
            e ∈ tr := fun e2 he2 => hsub e2 (by simp [he2])
        refine wfPredicateStage_ready w pf u un pData sData wId pId sId pEx sEx ac tc 1
          true tr hsub2 ?_ hpid hpx hsid hsx s p o a v g i h
        unfold endpointReady
        rw [mkConfirmed w tr wId wData _ _ _ 0 1 hsend hrec hwid Nat.zero_lt_one]
        simp


/-- Inversion of the workflow wrapper: a transaction event in the trace of
`executeLinkSocial` can only come from its node/edge-creation stages; the
input checks, the verification guard and the bot-key check must all have
passed and pinning must have returned a URI. -/
theorem executeLinkSocial_tx_inversion (w : World) (walletAddress : String)
    (platform : SocialPlatform) (oauthToken : String)
    (botPrivateKey envTwitchClientId : Option String) (e : Event)
    (he : e ∈ (executeLinkSocial w walletAddress platform oauthToken botPrivateKey
      envTwitchClientId).2)
    (htx : eventIsTx e = true) :
    ∃ uri,
      w.pinThing
        ((verifyAndGetUserIdW platform oauthToken none envTwitchClientId
          w.oauthFetch).1.userId.getD "")
        ("Verified " ++ platformSlug platform ++ " account ID") = .ok uri ∧
      e ∈ (wfWalletStage w platform
            (verifyAndGetUserIdW platform oauthToken none envTwitchClientId
              w.oauthFetch).1.userId
            (verifyAndGetUserIdW platform oauthToken none envTwitchClientId
              w.oauthFetch).1.username
            (stringToHex walletAddress) (stringToHex (PREDICATE_NAMES platform))
            (stringToHex uri)
            (w.calculateAtomId (stringToHex walletAddress))
            (w.calculateAtomId (stringToHex (PREDICATE_NAMES platform)))
            (w.calculateAtomId (stringToHex uri))
            (w.isTermCreated (w.calculateAtomId (stringToHex walletAddress)))
            (w.isTermCreated (w.calculateAtomId (stringToHex (PREDICATE_NAMES platform))))
            (w.isTermCreated (w.calculateAtomId (stringToHex uri)))
            w.getAtomCost w.getTripleCost).2 ∧
      (∀ e2 ∈ (wfWalletStage w platform
            (verifyAndGetUserIdW platform oauthToken none envTwitchClientId
              w.oauthFetch).1.userId
            (verifyAndGetUserIdW platform oauthToken none envTwitchClientId
              w.oauthFetch).1.username
            (stringToHex walletAddress) (stringToHex (PREDICATE_NAMES platform))
            (stringToHex uri)
            (w.calculateAtomId (stringToHex walletAddress))
            (w.calculateAtomId (stringToHex (PREDICATE_NAMES platform)))
            (w.calculateAtomId (stringToHex uri))
            (w.isTermCreated (w.calculateAtomId (stringToHex walletAddress)))
            (w.isTermCreated (w.calculateAtomId (stringToHex (PREDICATE_NAMES platform))))
            (w.isTermCreated (w.calculateAtomId (stringToHex uri)))
            w.getAtomCost w.getTripleCost).2,
        e2 ∈ (executeLinkSocial w walletAddress platform oauthToken botPrivateKey
          envTwitchClientId).2) := by
  cases hwa : jsFalsyStr (some walletAddress) with
  | true => simp [executeLinkSocial, hwa] at he
  | false =>
    cases hot : jsFalsyStr (some oauthToken) with
    | true => simp [executeLinkSocial, hwa, hot] at he
    | false =>
      cases hv : (!(verifyAndGetUserIdW platform oauthToken none envTwitchClientId
          w.oauthFetch).1.valid ||
          jsFalsyStr (verifyAndGetUserIdW platform oauthToken none envTwitchClientId
            w.oauthFetch).1.userId) with
      | true =>
        cases hoc : (verifyAndGetUserIdW platform oauthToken none envTwitchClientId
            w.oauthFetch).2 <;>
          simp only [executeLinkSocial, hwa, hot, hv, hoc] at he <;>
          simp at he <;> (try subst he) <;> simp [eventIsTx] at htx
      | false =>
        cases hbk : jsFalsyStr botPrivateKey with
        | true =>
          cases hoc : (verifyAndGetUserIdW platform oauthToken none envTwitchClientId
              w.oauthFetch).2 <;>
            simp only [executeLinkSocial, hwa, hot, hv, hbk, hoc] at he <;>
            simp at he <;> (try subst he) <;> simp [eventIsTx] at htx
        | false =>
          rcases hpin : w.pinThing
              ((verifyAndGetUserIdW platform oauthToken none envTwitchClientId
                w.oauthFetch).1.userId.getD "")
              ("Verified " ++ platformSlug platform ++ " account ID") with m | uri
          · cases hoc : (verifyAndGetUserIdW platform oauthToken none envTwitchClientId
                w.oauthFetch).2 <;>
              simp only [executeLinkSocial, hwa, hot, hv, hbk, hoc, hpin] at he <;>
              simp at he <;>
              (repeat' rcases he with he | he) <;>
              (try subst he) <;>
              simp [eventIsTx] at htx
          · refine ⟨uri, rfl, ?_, ?_⟩
            · cases hoc : (verifyAndGetUserIdW platform oauthToken none envTwitchClientId
                  w.oauthFetch).2 <;>
                simp only [executeLinkSocial, hwa, hot, hv, hbk, hoc, hpin] at he <;>
                simp at he <;>
                (repeat' rcases he with he | he) <;>
                (try subst he) <;>
                first
                  | simpa using he
                  | (simp [eventIsTx] at htx)
            · intro x hx
              simp only [executeLinkSocial, hwa, hot, hv, hbk, hpin]
              simp [hx]

/-- C3.  In both pipeline copies, whenever the edge-creation call
`createTriples` is submitted, each of its three endpoint atom ids was either
reported existing by the on-ledger existence check or was created by a
one-atom `createAtoms` submission at a smaller transaction index whose
receipt was awaited and successful, earlier in the same invocation. -/
theorem edgeCreation_requires_ready_endpoints
    (w : World) (platform : SocialPlatform) (walletAddress oauthToken : String)
    (twitchClientId : Option String)
    (s p o : String) (a : List Nat) (v g i : Nat)
    (h : Event.sendTx (TxCall.createTriples [s] [p] [o] a) v g i ∈
      (linkSocialAccount w platform walletAddress oauthToken twitchClientId).2)
    (w2 : World) (walletAddress2 : String) (platform2 : SocialPlatform)
    (oauthToken2 : String) (botPrivateKey envTwitchClientId : Option String)
    (s2 p2 o2 : String) (a2 : List Nat) (v2 g2 i2 : Nat)
    (h2 : Event.sendTx (TxCall.createTriples [s2] [p2] [o2] a2) v2 g2 i2 ∈
      (executeLinkSocial w2 walletAddress2 platform2 oauthToken2 botPrivateKey
        envTwitchClientId).2) :
    (endpointReady w
        (linkSocialAccount w platform walletAddress oauthToken twitchClientId).2 s i
        = true ∧
     endpointReady w
        (linkSocialAccount w platform walletAddress oauthToken twitchClientId).2 p i
        = true ∧
     endpointReady w
        (linkSocialAccount w platform walletAddress oauthToken twitchClientId).2 o i
        = true) ∧
    (endpointReady w2
        (executeLinkSocial w2 walletAddress2 platform2 oauthToken2 botPrivateKey
          envTwitchClientId).2 s2 i2 = true ∧
     endpointReady w2
        (executeLinkSocial w2 walletAddress2 platform2 oauthToken2 botPrivateKey
          envTwitchClientId).2 p2 i2 = true ∧
     endpointReady w2
        (executeLinkSocial w2 walletAddress2 platform2 oauthToken2 botPrivateKey
          envTwitchClientId).2 o2 i2 = true) := by
  constructor
  · obtain ⟨uri, hpin, hm, -, hsub⟩ := linkSocialAccount_tx_inversion w platform
      walletAddress oauthToken twitchClientId _ h rfl
    exact walletStage_ready w platform _ _ _ _ _ _ _ _ _ _ _ _ _ _ hsub
      rfl rfl rfl rfl rfl rfl s p o a v g i hm
  · obtain ⟨uri, hpin, hm, hsub⟩ := executeLinkSocial_tx_inversion w2 walletAddress2
      platform2 oauthToken2 botPrivateKey envTwitchClientId _ h2 rfl
    exact wfWalletStage_ready w2 platform2 _ _ _ _ _ _ _ _ _ _ _ _ _ _ hsub
      rfl rfl rfl rfl rfl rfl s2 p2 o2 a2 v2 g2 i2 hm

/-- Witness for C3 at the concrete fresh-success world, where the triple is
submitted at transaction index 3 after the three atom creations. -/
theorem edgeCreation_requires_ready_endpoints_witness :
    (endpointReady freshSuccessWorld
        (linkSocialAccount freshSuccessWorld .discord "0xW" "tok" none).2
        (freshSuccessWorld.calculateAtomId (stringToHex "0xW")) 3 = true ∧
     endpointReady freshSuccessWorld
        (linkSocialAccount freshSuccessWorld .discord "0xW" "tok" none).2
        (freshSuccessWorld.calculateAtomId
          (stringToHex (PREDICATE_NAMES .discord))) 3 = true ∧
     endpointReady freshSuccessWorld
        (linkSocialAccount freshSuccessWorld .discord "0xW" "tok" none).2
        (freshSuccessWorld.calculateAtomId (stringToHex "ipfs://QmSocial")) 3
        = true) ∧
    (endpointReady freshSuccessWorld
        (executeLinkSocial freshSuccessWorld "0xW" .discord "tok" (some "0xkey")
          none).2
        (freshSuccessWorld.calculateAtomId (stringToHex "0xW")) 3 = true ∧
     endpointReady freshSuccessWorld
        (executeLinkSocial freshSuccessWorld "0xW" .discord "tok" (some "0xkey")
          none).2
        (freshSuccessWorld.calculateAtomId
          (stringToHex (PREDICATE_NAMES .discord))) 3 = true ∧
     endpointReady freshSuccessWorld
        (executeLinkSocial freshSuccessWorld "0xW" .discord "tok" (some "0xkey")
          none).2
        (freshSuccessWorld.calculateAtomId (stringToHex "ipfs://QmSocial")) 3
        = true) :=
  edgeCreation_requires_ready_endpoints freshSuccessWorld .discord "0xW" "tok" none
    (freshSuccessWorld.calculateAtomId (stringToHex "0xW"))
    (freshSuccessWorld.calculateAtomId (stringToHex (PREDICATE_NAMES .discord)))
    (freshSuccessWorld.calculateAtomId (stringToHex "ipfs://QmSocial"))
    [freshSuccessWorld.getTripleCost + BOT_DEPOSIT_CONFIG.TRIPLE_EXTRA]
    (freshSuccessWorld.getTripleCost + BOT_DEPOSIT_CONFIG.TRIPLE_EXTRA)
    GAS_LIMITS.TRIPLE_CREATION 3 (by decide)
    freshSuccessWorld "0xW" .discord "tok" (some "0xkey") none
    (freshSuccessWorld.calculateAtomId (stringToHex "0xW"))
    (freshSuccessWorld.calculateAtomId (stringToHex (PREDICATE_NAMES .discord)))
    (freshSuccessWorld.calculateAtomId (stringToHex "ipfs://QmSocial"))
    [freshSuccessWorld.getTripleCost + 500000000000000000]
    (freshSuccessWorld.getTripleCost + 500000000000000000)
    800000 3 (by decide)


end Sofia
